import Mathlib

/-!
# golang-test-task: ingestion and ordered retrieval

A shallow embedding of the use case layer (`internal/usecase`), of the Postgres
backed storage (`internal/storage`) and of the HTTP handler
(`internal/http/handlers`), followed by the properties proved about them.

Conventions of the embedding:

* Go `int` values are `Int`; no arithmetic is performed on them, only comparison.
* A Go `[]int` is `Option (List Int)`: `none` is the nil slice, `some xs` a non-nil
  slice holding `xs`.
* A Go `error` result is `Option GoError`: `none` is the nil error.
* A method that touches a collaborator takes the collaborator's state and returns
  the new state next to its results.
* A call through a nil `*slog.Logger` is a run-time panic; methods that may log
  return an `Outcome`.
-/

namespace Testovoe

/-! ## Go values -/

/-- Go error values: `errors.New text`, or `fmt.Errorf` with one `%w` verb, which renders
as `pre` followed by the rendering of `cause` and unwraps to `cause`. -/
inductive GoError where
  | mk (text : String)
  | wrap (pre : String) (cause : GoError)
deriving DecidableEq, Repr

/-- The `Error()` string of an error value. -/
def GoError.Error : GoError → String
  | .mk text => text
  | .wrap pre cause => pre ++ cause.Error

/-- Go `errors.Unwrap`: the wrapped cause, when there is one. -/
def GoError.Unwrap : GoError → Option GoError
  | .mk _ => none
  | .wrap _ cause => some cause

/-- Number of `%w` layers around the innermost cause. -/
def GoError.depth : GoError → Nat
  | .mk _ => 0
  | .wrap _ cause => cause.depth + 1

/-- A `context.Context`, identified by a label. -/
abbrev Ctx := String

/-- A Go `[]int`: `none` is the nil slice. -/
abbrev Slice := Option (List Int)

/-- The elements of a slice; the nil slice has none. -/
def Slice.toList (s : Slice) : List Int := s.getD []

/-- Go `len`. -/
def Slice.len (s : Slice) : Nat := s.toList.length

/-- What a call does: it returns a value, or it panics. -/
inductive Outcome (α : Type) where
  | ret (val : α)
  | panic (reason : String)
deriving DecidableEq, Repr

/-! ## Logging -/

/-- A record handed to a logger: the message and the remaining arguments, rendered. -/
structure LogRecord where
  msg : String
  args : List String
deriving DecidableEq, Repr

/-- A `slog.Logger` value (what a non-nil `*slog.Logger` points to). -/
structure Logger where
  handler : String
deriving DecidableEq, Repr

/-- The panic raised by a method call on a nil pointer. -/
def nilDeref : String := "invalid memory address or nil pointer dereference"

/-- The effect of `l.Error(msg, args...)` on the records logged so far, for `l` a
`*slog.Logger` (`none` is the nil pointer, on which the call panics). -/
def logError (l : Option Logger) (msg : String) (args : List String)
    (logs : List LogRecord) : Outcome (List LogRecord) :=
  match l with
  | none => .panic nilDeref
  | some _ => .ret (logs ++ [{ msg := msg, args := args }])

/-! ## `internal/usecase` -/

/-- Insertion step of `insertionSortOrdered` in the Go standard library: the new element
moves left while it is smaller than its left neighbour, so that in an ascending run its
place is right after the last element that is not greater than it. -/
def insertOrdered (x : Int) : List Int → List Int
  | [] => [x]
  | y :: ys => if x < y then x :: y :: ys else y :: insertOrdered x ys

/-- The standard library's `slices.Sort` on `[]int` (not part of the repository), which
sorts in ascending order; given here as the insertion sort the library runs on short
slices. On integers every sorting algorithm computes the same slice. -/
def slicesSort (xs : List Int) : List Int :=
  xs.foldl (fun acc x => insertOrdered x acc) []

/-- The function `SortNums` of `sortNums.go`. -/
def SortNums (numbers : Slice) : Slice × Option GoError :=
  if numbers.len < 2 then
    (numbers, none)
  else
    (numbers.map slicesSort, none)

/-- The interface `Storage` of `usecase.go`, over a store state `σ`. -/
structure Storage (σ : Type) where
  PutNumber : Ctx → Int → σ → Option GoError × σ
  GetSlice : Ctx → σ → (Slice × Option GoError) × σ

/-- The struct `UseCase` of `usecase.go`; `log` is a `*slog.Logger`. -/
structure UseCase (σ : Type) where
  log : Option Logger
  Storage : Storage σ

/-- The constructor `NewUseCase`. -/
def NewUseCase {σ : Type} (log : Option Logger) (storage : Storage σ) : UseCase σ :=
  { log := log, Storage := storage }

/-- What a use case method acts on: the store behind `Storage` and the records its
logger has written. -/
structure World (σ : Type) where
  store : σ
  logs : List LogRecord

/-- The method `UseCase.PutNumber` of `putNumber.go`. -/
def UseCase.PutNumber {σ : Type} (u : UseCase σ) (ctx : Ctx) (number : Int)
    (w : World σ) : Outcome (Option GoError) × World σ :=
  let op := "useCase.PutNumber"
  match u.Storage.PutNumber ctx number w.store with
  | (some err, st) =>
    match logError u.log "failed to put number" ["op", op, "error", err.Error] w.logs with
    | .panic reason => (.panic reason, { store := st, logs := w.logs })
    | .ret logs => (.ret (some err), { store := st, logs := logs })
  | (none, st) => (.ret none, { store := st, logs := w.logs })

/-- The method `UseCase.GetSlices` of `getSlices.go`. -/
def UseCase.GetSlices {σ : Type} (u : UseCase σ) (ctx : Ctx)
    (w : World σ) : Outcome (Slice × Option GoError) × World σ :=
  let op := "useCase.GetSlices"
  match u.Storage.GetSlice ctx w.store with
  | ((_, some err), st) =>
    match logError u.log "failed to get slices" [op, err.Error] w.logs with
    | .panic reason => (.panic reason, { store := st, logs := w.logs })
    | .ret logs => (.ret (none, some err), { store := st, logs := logs })
  | ((numbers, none), st) =>
    match SortNums numbers with
    | (_, some err) =>
      match logError u.log "failed to sort numbers" [op, err.Error] w.logs with
      | .panic reason => (.panic reason, { store := st, logs := w.logs })
      | .ret logs => (.ret (none, some err), { store := st, logs := logs })
    | (sorted, none) => (.ret (sorted, none), { store := st, logs := w.logs })

/-- A call received by a test double. -/
inductive Call where
  | put (ctx : Ctx) (num : Int)
  | get (ctx : Ctx)
deriving DecidableEq, Repr

/-- A test double for `Storage` (the mocks of the tests): every call answers with the
same canned results, and the state is the list of the calls received so far. -/
def stubStorage (numbers : Slice) (putErr getErr : Option GoError) : Storage (List Call) :=
  { PutNumber := fun ctx num calls => (putErr, calls ++ [Call.put ctx num])
    GetSlice := fun ctx calls => ((numbers, getErr), calls ++ [Call.get ctx]) }

/-- A sequence of `PutNumber` calls with the values `vs`, one after the other, with the
outcome of each. -/
def UseCase.PutNumbers {σ : Type} (u : UseCase σ) (ctx : Ctx) :
    List Int → World σ → List (Outcome (Option GoError)) × World σ
  | [], w => ([], w)
  | v :: vs, w =>
    let r := u.PutNumber ctx v w
    let rs := UseCase.PutNumbers u ctx vs r.2
    (r.1 :: rs.1, rs.2)

/-! ## `internal/storage` -/

/-- The answer of the database server to one call of the pool: whether the call itself
fails (`Exec`, `Query`), and for a query in which order the rows come back, whether
`rows.Scan` fails at some row and whether `rows.Err` reports an error at the end. -/
structure DbReply where
  fail : Option GoError
  order : Nat
  badRow : Option (Nat × GoError)
  iterErr : Option GoError
deriving DecidableEq, Repr

/-- The answer of a server on which nothing goes wrong. -/
def DbReply.healthy : DbReply :=
  { fail := none, order := 0, badRow := none, iterErr := none }

/-- A query answered without any failure (in whatever row order). -/
def DbReply.scanOk (r : DbReply) : Prop :=
  r.fail = none ∧ r.badRow = none ∧ r.iterErr = none

instance (r : DbReply) : Decidable r.scanOk := by
  unfold DbReply.scanOk
  infer_instance

/-- Modelled from the spec: the Number Store behind `*pgxpool.Pool` (the database is not
part of the repository). Per sections 3 and 4.1 it is append-only: `nums` holds every
entry appended, a successful append adds one entry, a failed one adds none, and a scan
returns every entry in an order of the store's choosing. `tape` holds the answers the
server will give to the coming calls, first to last; once it is used up the server is
healthy. -/
structure Db where
  nums : List Int
  tape : List DbReply
deriving DecidableEq, Repr

/-- The answer to the next call, and the pool after it. -/
def Db.next (db : Db) : DbReply × Db :=
  match db.tape with
  | [] => (DbReply.healthy, db)
  | r :: rest => (r, { nums := db.nums, tape := rest })

/-- The call `s.db.Exec(ctx, "INSERT INTO nums (num) VALUES ($1)", num)`. -/
def Db.ExecInsert (db : Db) (num : Int) : Option GoError × Db :=
  match db.next with
  | (r, db1) =>
    match r.fail with
    | some e => (some e, db1)
    | none => (none, { nums := db1.nums ++ [num], tape := db1.tape })

/-- The `k`-th ordering of the rows (`SELECT` without `ORDER BY` promises none): the
digits of `k` in the factorial number system say where each row goes among the rows after
it; ordering `0` is the order of insertion. -/
def permuteRows (k : Nat) : List Int → List Int
  | [] => []
  | x :: xs =>
    let rest := permuteRows (k / (xs.length + 1)) xs
    rest.take (k % (xs.length + 1)) ++ x :: rest.drop (k % (xs.length + 1))

/-- What `rows.Next` and `rows.Scan` deliver, row by row: a value, or a scan error at the
bad row (the loop of `GetSlice` stops there). -/
def deliver (bad : Option (Nat × GoError)) (rows : List Int) : List (Except GoError Int) :=
  match bad with
  | none => rows.map Except.ok
  | some (i, e) => (rows.take i).map Except.ok ++ (if i < rows.length then [Except.error e] else [])

/-- The value `pgx.Rows` of a query: the rows to come and the final `rows.Err()`. -/
structure Rows where
  pending : List (Except GoError Int)
  err : Option GoError

/-- The call `s.db.Query(ctx, "SELECT num FROM nums")`. -/
def Db.Query (db : Db) : Except GoError Rows × Db :=
  match db.next with
  | (r, db1) =>
    match r.fail with
    | some e => (Except.error e, db1)
    | none =>
      (Except.ok { pending := deliver r.badRow (permuteRows r.order db1.nums), err := r.iterErr },
        db1)

/-- Go `append(numbers, num)`. -/
def Slice.append (numbers : Slice) (num : Int) : Slice :=
  some (numbers.toList ++ [num])

namespace storage

/-- The method `Storage.PutNumber` of `storage.go`. -/
def PutNumber (_ctx : Ctx) (num : Int) (db : Db) : Option GoError × Db :=
  let op := "storage.PutNumber"
  match db.ExecInsert num with
  | (some err, db1) => (some (GoError.wrap (op ++ ": could not store num: ") err), db1)
  | (none, db1) => (none, db1)

/-- The loop `for rows.Next()` of `Storage.GetSlice`, from the rows still to come and the
slice built so far. -/
def scanRows (op : String) : List (Except GoError Int) → Slice → Slice × Option GoError
  | [], numbers => (numbers, none)
  | Except.error err :: _, _ => (none, some (GoError.wrap (op ++ ": could not fetch nums: ") err))
  | Except.ok num :: rest, numbers => scanRows op rest (numbers.append num)

/-- The method `Storage.GetSlice` of `storage.go`. -/
def GetSlice (_ctx : Ctx) (db : Db) : (Slice × Option GoError) × Db :=
  let op := "storage.GetSlice"
  match db.Query with
  | (Except.error err, db1) =>
    ((none, some (GoError.wrap (op ++ ": could not fetch nums: ") err)), db1)
  | (Except.ok rows, db1) =>
    match scanRows op rows.pending none with
    | (_, some err) => ((none, some err), db1)
    | (numbers, none) =>
      match rows.err with
      | some err => ((none, some (GoError.wrap (op ++ ": could not fetch nums: ") err)), db1)
      | none => ((numbers, none), db1)

/-- The struct `storage.Storage` seen through the interface `usecase.Storage`. -/
def Storage : Testovoe.Storage Db :=
  { PutNumber := PutNumber, GetSlice := GetSlice }

end storage

/-! ## `internal/http/handlers` -/

/-- A `http.ResponseWriter`: the header map, the status code once it has been written,
the body written so far, and whether the connection refuses the body (`Write` then
returns `writeErr`). -/
structure ResponseWriter where
  header : List (String × String)
  code : Option Nat
  body : String
  writeErr : Option GoError
deriving DecidableEq, Repr

/-- The writer a handler is given: nothing written yet. -/
def ResponseWriter.fresh (writeErr : Option GoError) : ResponseWriter :=
  { header := [], code := none, body := "", writeErr := writeErr }

/-- The call `w.Header().Set(key, value)`. -/
def ResponseWriter.SetHeader (w : ResponseWriter) (key value : String) : ResponseWriter :=
  { w with header := (key, value) :: w.header.filter (fun kv => kv.1 != key) }

/-- The call `w.WriteHeader(code)`: the first status code written stands, a later call is
superfluous. -/
def ResponseWriter.WriteHeader (w : ResponseWriter) (code : Nat) : ResponseWriter :=
  match w.code with
  | some _ => w
  | none => { w with code := some code }

/-- The call `w.Write(data)`: it writes status 200 first when no status has been written,
then the data, unless the connection refuses it. -/
def ResponseWriter.Write (w : ResponseWriter) (data : String) : Option GoError × ResponseWriter :=
  let w1 := w.WriteHeader 200
  match w1.writeErr with
  | some err => (some err, w1)
  | none => (none, { w1 with body := w1.body ++ data })

/-- The status the client sees: the code written, or 200 when the handler wrote none. -/
def ResponseWriter.status (w : ResponseWriter) : Nat := w.code.getD 200

/-- A `*http.Request`, as far as the handler reads it: what `io.ReadAll(r.Body)` yields. -/
structure Request where
  body : Except GoError String

/-- The standard library's `json.Marshal` on a `[]int`: a nil slice encodes as `null`, any
other as the array of its elements in decimal; it never fails on this type. -/
def jsonMarshal (numbers : Slice) : String × Option GoError :=
  match numbers with
  | none => ("null", none)
  | some xs => ("[" ++ ",".intercalate (xs.map toString) ++ "]", none)

/-- The JSON array of a sequence of integers, as the claims word it. -/
def jsonArray (xs : List Int) : String :=
  "[" ++ ",".intercalate (xs.map toString) ++ "]"

namespace handlers

/-- The interface `UseCase` of `handler.go`, over the state `ω` of its implementation. -/
structure UseCase (ω : Type) where
  GetSlices : Ctx → ω → Outcome (Slice × Option GoError) × ω
  PutNumber : Ctx → Int → ω → Outcome (Option GoError) × ω

/-- The struct `HTTPHandler` of `handler.go`; `log` is a `*slog.Logger`. -/
structure HTTPHandler (ω : Type) where
  useCase : UseCase ω
  log : Option Logger

/-- The constructor `NewHTTPHandler`: it sets `useCase` and leaves `log` at its zero
value. -/
def NewHTTPHandler {ω : Type} (useCase : UseCase ω) : HTTPHandler ω :=
  { useCase := useCase, log := none }

/-- How serving one request ends: whether the handler function returned or panicked, the
response writer, the state of the use case, and the records logged by the handler. -/
structure Served (ω : Type) where
  outcome : Outcome Unit
  w : ResponseWriter
  state : ω
  logs : List LogRecord

/-- The tail shared by the error branches of `HandleRequest`:
`h.log.Error(msg, op, err); w.WriteHeader(http.StatusBadRequest); return`. -/
def reject {ω : Type} (h : HTTPHandler ω) (msg : String) (err : GoError) (w : ResponseWriter)
    (st : ω) (logs : List LogRecord) : Served ω :=
  match logError h.log msg ["handlers.HandleRequest", err.Error] logs with
  | .panic reason => { outcome := .panic reason, w := w, state := st, logs := logs }
  | .ret logs1 => { outcome := .ret (), w := w.WriteHeader 400, state := st, logs := logs1 }

/-- The function returned by `HTTPHandler.HandleRequest ctx`, run on a writer and a
request. `unmarshalUserNum` stands for `json.Unmarshal(body, &userNum)` followed by
`userNum.Num`: the struct `domain.UserNum` is declared in `internal/domain`, which is not
among the sources. The deferred `r.Body.Close()` changes nothing that is observed here. -/
def HTTPHandler.HandleRequest {ω : Type} (h : HTTPHandler ω)
    (unmarshalUserNum : String → Except GoError Int) (ctx : Ctx)
    (w : ResponseWriter) (r : Request) (st : ω) (logs : List LogRecord) : Served ω :=
  let w := w.SetHeader "Content-Type" "application/json"
  match r.body with
  | .error err => reject h "Can't read body" err w st logs
  | .ok body =>
    match unmarshalUserNum body with
    | .error err => reject h "Can't parse body" err w st logs
    | .ok num =>
      match h.useCase.PutNumber ctx num st with
      | (.panic reason, st1) => { outcome := .panic reason, w := w, state := st1, logs := logs }
      | (.ret (some err), st1) => reject h "could not put num" err w st1 logs
      | (.ret none, st1) =>
        match h.useCase.GetSlices ctx st1 with
        | (.panic reason, st2) => { outcome := .panic reason, w := w, state := st2, logs := logs }
        | (.ret (_, some err), st2) => reject h "could not get numbers" err w st2 logs
        | (.ret (numbers, none), st2) =>
          match jsonMarshal numbers with
          | (_, some err) => reject h "could not marshal response" err w st2 logs
          | (response, none) =>
            match w.Write response with
            | (some err, w1) => reject h "could not write response" err w1 st2 logs
            | (none, w1) => { outcome := .ret (), w := w1, state := st2, logs := logs }

/-- A test double for the interface `UseCase` (the mocks of the handler tests): canned
results, and the calls received as state. -/
def stubUseCase (putErr : Option GoError) (numbers : Slice) (getErr : Option GoError) :
    UseCase (List Call) :=
  { PutNumber := fun ctx num calls => (.ret putErr, calls ++ [Call.put ctx num])
    GetSlices := fun ctx calls => (.ret (numbers, getErr), calls ++ [Call.get ctx]) }

/-- A decoder for bodies of the shape written by the tests, by table. -/
def stubUnmarshal (table : List (String × Int)) (body : String) : Except GoError Int :=
  match table.lookup body with
  | some n => .ok n
  | none => .error (GoError.mk "invalid character")

end handlers

/-- The struct `usecase.UseCase` seen through the interface `handlers.UseCase`. -/
def UseCase.toHandlers {σ : Type} (u : UseCase σ) : handlers.UseCase (World σ) :=
  { GetSlices := fun ctx w => u.GetSlices ctx w
    PutNumber := fun ctx num w => u.PutNumber ctx num w }

/-! ## Theorems -/

theorem insertOrdered_perm (x : Int) (l : List Int) :
    (insertOrdered x l).Perm (x :: l) := by
  induction l with
  | nil => simp [insertOrdered]
  | cons y ys ih =>
    simp only [insertOrdered]
    split
    · exact List.Perm.refl _
    · exact (List.Perm.cons y ih).trans (List.Perm.swap x y ys)

theorem insertOrdered_sorted (x : Int) (l : List Int) (h : l.Sorted (· ≤ ·)) :
    (insertOrdered x l).Sorted (· ≤ ·) := by
  induction l with
  | nil => simp [insertOrdered]
  | cons y ys ih =>
    simp only [insertOrdered]
    have hy := List.rel_of_sorted_cons h
    have hys := List.Sorted.of_cons h
    split
    · rename_i hlt
      refine List.sorted_cons.2 ⟨?_, h⟩
      intro b hb
      rcases List.mem_cons.1 hb with rfl | hb
      · exact le_of_lt hlt
      · exact le_trans (le_of_lt hlt) (hy b hb)
    · rename_i hge
      refine List.sorted_cons.2 ⟨?_, ih hys⟩
      intro b hb
      rcases List.mem_cons.1 ((insertOrdered_perm x ys).subset hb) with rfl | hb
      · exact not_lt.1 hge
      · exact hy b hb

theorem foldl_insertOrdered_perm (xs acc : List Int) :
    (xs.foldl (fun acc x => insertOrdered x acc) acc).Perm (acc ++ xs) := by
  induction xs generalizing acc with
  | nil => simp
  | cons x xs ih =>
    simp only [List.foldl_cons]
    refine (ih (insertOrdered x acc)).trans ?_
    refine ((insertOrdered_perm x acc).append_right xs).trans ?_
    simpa using (@List.perm_middle Int x acc xs).symm

theorem foldl_insertOrdered_sorted (xs acc : List Int) (h : acc.Sorted (· ≤ ·)) :
    (xs.foldl (fun acc x => insertOrdered x acc) acc).Sorted (· ≤ ·) := by
  induction xs generalizing acc with
  | nil => simpa using h
  | cons x xs ih =>
    simp only [List.foldl_cons]
    exact ih _ (insertOrdered_sorted x acc h)

theorem slicesSort_perm (xs : List Int) : (slicesSort xs).Perm xs := by
  simpa [slicesSort] using foldl_insertOrdered_perm xs []

theorem slicesSort_sorted (xs : List Int) : (slicesSort xs).Sorted (· ≤ ·) :=
  foldl_insertOrdered_sorted xs [] List.sorted_nil

/-- Two ascending lists with the same elements are the same list. -/
theorem slicesSort_eq_of_perm {xs ys : List Int} (h : xs.Perm ys) :
    slicesSort xs = slicesSort ys :=
  List.eq_of_perm_of_sorted
    (((slicesSort_perm xs).trans h).trans (slicesSort_perm ys).symm)
    (slicesSort_sorted xs) (slicesSort_sorted ys)

theorem slicesSort_of_sorted {xs : List Int} (h : xs.Sorted (· ≤ ·)) :
    slicesSort xs = xs :=
  List.eq_of_perm_of_sorted (slicesSort_perm xs) (slicesSort_sorted xs) h

theorem SortNums_snd (numbers : Slice) : (SortNums numbers).2 = none := by
  unfold SortNums
  split <;> rfl

theorem SortNums_toList (numbers : Slice) :
    (SortNums numbers).1.toList = slicesSort numbers.toList := by
  unfold SortNums
  split
  · rename_i h
    cases numbers with
    | none => rfl
    | some xs =>
      match xs, h with
      | [], _ => rfl
      | [x], _ => rfl
      | _ :: _ :: _, h =>
        simp only [Slice.len, Slice.toList, Option.getD_some, List.length_cons] at h
        omega
  · cases numbers with
    | none => rfl
    | some xs => rfl

theorem SortNums_isNone (numbers : Slice) :
    (SortNums numbers).1 = none ↔ numbers = none := by
  unfold SortNums
  split
  · rfl
  · cases numbers <;> simp

theorem SortNums_eq (numbers : Slice) :
    SortNums numbers = ((SortNums numbers).1, none) := by
  rw [← SortNums_snd numbers]

/-- On the success path of the storage, `GetSlices` returns what `SortNums` makes of the
scanned slice, logs nothing and leaves the store as the scan left it. -/
theorem GetSlices_of_scan_ok {σ : Type} (u : UseCase σ) (ctx : Ctx) (w : World σ)
    (xs : Slice) (st : σ) (h : u.Storage.GetSlice ctx w.store = ((xs, none), st)) :
    u.GetSlices ctx w = (.ret ((SortNums xs).1, none), { store := st, logs := w.logs }) := by
  unfold UseCase.GetSlices
  simp only [h]
  rw [SortNums_eq xs]

/-- On the failure path of the storage, a use case that has a logger logs one record and
returns the nil slice with the storage's error. -/
theorem GetSlices_of_scan_err {σ : Type} (u : UseCase σ) (lg : Logger) (ctx : Ctx)
    (w : World σ) (xs : Slice) (e : GoError) (st : σ) (hlog : u.log = some lg)
    (h : u.Storage.GetSlice ctx w.store = ((xs, some e), st)) :
    u.GetSlices ctx w = (.ret (none, some e),
      { store := st
        logs := w.logs ++ [{ msg := "failed to get slices", args := ["useCase.GetSlices", e.Error] }] }) := by
  unfold UseCase.GetSlices
  simp only [h, hlog, logError]

/-- The store after `UseCase.PutNumber` is the store after the one storage call. -/
theorem PutNumber_store {σ : Type} (u : UseCase σ) (ctx : Ctx) (n : Int) (w : World σ) :
    (u.PutNumber ctx n w).2.store = (u.Storage.PutNumber ctx n w.store).2 := by
  unfold UseCase.PutNumber
  rcases hr : u.Storage.PutNumber ctx n w.store with ⟨_ | e, st⟩
  · rfl
  · cases hl : u.log <;> simp [logError]

/-- With a logger, `UseCase.PutNumber` returns the result of the one storage call. -/
theorem PutNumber_ret {σ : Type} (u : UseCase σ) (lg : Logger) (ctx : Ctx) (n : Int)
    (w : World σ) (hlog : u.log = some lg) :
    (u.PutNumber ctx n w).1 = .ret (u.Storage.PutNumber ctx n w.store).1 := by
  unfold UseCase.PutNumber
  rcases hr : u.Storage.PutNumber ctx n w.store with ⟨_ | e, st⟩
  · rfl
  · simp [hlog, logError]

/-- Without a logger the error path of `PutNumber` panics at `u.log.Error`, after the one
storage call. -/
theorem PutNumber_nil_logger {σ : Type} (u : UseCase σ) (ctx : Ctx) (n : Int) (w : World σ)
    (e : GoError) (st : σ) (hlog : u.log = none)
    (h : u.Storage.PutNumber ctx n w.store = (some e, st)) :
    u.PutNumber ctx n w = (.panic nilDeref, { store := st, logs := w.logs }) := by
  unfold UseCase.PutNumber
  simp only [h, hlog, logError]

/-- Without a logger the error path of `GetSlices` panics at `u.log.Error`. -/
theorem GetSlices_nil_logger {σ : Type} (u : UseCase σ) (ctx : Ctx) (w : World σ)
    (xs : Slice) (e : GoError) (st : σ) (hlog : u.log = none)
    (h : u.Storage.GetSlice ctx w.store = ((xs, some e), st)) :
    u.GetSlices ctx w = (.panic nilDeref, { store := st, logs := w.logs }) := by
  unfold UseCase.GetSlices
  simp only [h, hlog, logError]

/-- The large slice test, for every size `k` (the test takes 1000): on the descending slice
`k, k-1, ..., 1` the listing returns `k` values in non-decreasing order. -/
theorem GetSlices_large_slice (k : Nat) :
    ∃ r : Slice,
      ((NewUseCase (some ⟨"text"⟩)
          (stubStorage (some ((List.range k).map (fun (i : Nat) => (k : Int) - Int.ofNat i))) none none)).GetSlices
          "ctx" { store := [], logs := [] }).1 = .ret (r, none)
        ∧ r.len = k ∧ r.toList.Chain' (· ≤ ·) := by
  refine ⟨(SortNums (some ((List.range k).map (fun (i : Nat) => (k : Int) - Int.ofNat i)))).1, ?_, ?_, ?_⟩
  · rw [GetSlices_of_scan_ok _ "ctx" _ (some ((List.range k).map (fun (i : Nat) => (k : Int) - Int.ofNat i)))
      [Call.get "ctx"] rfl]
  · unfold Slice.len
    rw [SortNums_toList, (slicesSort_perm _).length_eq]
    simp only [Slice.toList, Option.getD_some, List.length_map, List.length_range]
  · rw [SortNums_toList]
    exact List.Pairwise.chain' (slicesSort_sorted _)

/-! ## The storage over the append-only store -/

theorem Db.next_nums (db : Db) : db.next.2.nums = db.nums := by
  unfold Db.next
  cases db.tape <;> rfl

theorem permuteRows_perm (k : Nat) (rows : List Int) : (permuteRows k rows).Perm rows := by
  induction rows generalizing k with
  | nil => exact List.Perm.refl _
  | cons x xs ih =>
    simp only [permuteRows]
    refine List.perm_middle.trans (List.Perm.cons x ?_)
    rw [List.take_append_drop]
    exact ih _

theorem permuteRows_nil (k : Nat) : permuteRows k [] = [] :=
  List.perm_nil.1 (permuteRows_perm k [])

/-- A failed `INSERT` leaves the rows as they were; a successful one adds the number at
the end. Either way the server's answer is used up. -/
theorem storage_PutNumber_eq (ctx : Ctx) (n : Int) (db : Db) :
    storage.PutNumber ctx n db
      = match db.next.1.fail with
        | some e =>
          (some (GoError.wrap "storage.PutNumber: could not store num: " e), db.next.2)
        | none => (none, { nums := db.nums ++ [n], tape := db.next.2.tape }) := by
  unfold storage.PutNumber Db.ExecInsert
  rcases hn : db.next with ⟨r, db1⟩
  have h1 : db1.nums = db.nums := by
    have := Db.next_nums db
    rw [hn] at this
    exact this
  rcases r with ⟨_ | e, o, b, i⟩
  · simp only [h1]
  · simp only
    rfl

theorem storage_PutNumber_nums (ctx : Ctx) (n : Int) (db : Db) :
    (storage.PutNumber ctx n db).2.nums
      = if (storage.PutNumber ctx n db).1 = none then db.nums ++ [n] else db.nums := by
  rw [storage_PutNumber_eq]
  cases hf : db.next.1.fail with
  | none => simp
  | some e => simp [Db.next_nums]

theorem scanRows_ok (op : String) (xs : List Int) (acc : Slice) :
    storage.scanRows op (xs.map Except.ok) acc
      = (if xs = [] then acc else some (acc.toList ++ xs), none) := by
  induction xs generalizing acc with
  | nil => simp [storage.scanRows]
  | cons x xs ih =>
    simp only [List.map_cons, storage.scanRows, ih, Slice.append]
    by_cases hx : xs = []
    · simp [hx, Slice.toList]
    · simp [hx, Slice.toList]

/-- What a scan without failure returns for rows `nums` coming back in ordering `k`: the
nil slice when there is no row, the rows in that ordering otherwise. -/
theorem storage_GetSlice_scanOk (ctx : Ctx) (db : Db) (h : db.next.1.scanOk) :
    storage.GetSlice ctx db
      = ((if db.nums = [] then none else some (permuteRows db.next.1.order db.nums), none),
          db.next.2) := by
  obtain ⟨hf, hb, hi⟩ := h
  unfold storage.GetSlice Db.Query
  rcases hn : db.next with ⟨r, db1⟩
  have h1 : db1.nums = db.nums := by
    have := Db.next_nums db
    rw [hn] at this
    exact this
  rw [hn] at hf hb hi
  simp only at hf hb hi
  simp only [hf, hb, hi, deliver, scanRows_ok, h1]
  have hp := permuteRows_perm r.order db.nums
  by_cases hz : db.nums = []
  · simp [hz, permuteRows_nil]
  · have : permuteRows r.order db.nums ≠ [] := by
      intro h0
      rw [h0] at hp
      exact hz (List.nil_perm.1 hp)
    simp [hz, this, Slice.toList]

theorem SortNums_some (xs : List Int) : (SortNums (some xs)).1 = some (slicesSort xs) := by
  unfold SortNums
  split
  · rename_i h
    match xs, h with
    | [], _ => rfl
    | [x], _ => rfl
    | _ :: _ :: _, h =>
      simp only [Slice.len, Slice.toList, Option.getD_some, List.length_cons] at h
      omega
  · rfl

/-- The slice a listing returns for a store holding `nums`, whatever the scan order. -/
theorem SortNums_scan (k : Nat) (nums : List Int) :
    (SortNums (if nums = [] then none else some (permuteRows k nums))).1
      = if nums = [] then none else some (slicesSort nums) := by
  by_cases hz : nums = []
  · simp [hz, SortNums, Slice.len, Slice.toList]
  · simp only [hz, if_false, SortNums_some]
    rw [slicesSort_eq_of_perm (permuteRows_perm k nums)]

/-- A listing over the Postgres storage whose scan does not fail: it returns the sorted
rows, logs nothing and keeps the rows. -/
theorem GetSlices_scanOk (u : UseCase Db) (ctx : Ctx) (w : World Db)
    (hst : u.Storage = storage.Storage) (h : w.store.next.1.scanOk) :
    u.GetSlices ctx w
      = (.ret (if w.store.nums = [] then none else some (slicesSort w.store.nums), none),
          { store := w.store.next.2, logs := w.logs }) := by
  have hs : u.Storage.GetSlice ctx w.store
      = ((if w.store.nums = [] then none
          else some (permuteRows w.store.next.1.order w.store.nums), none), w.store.next.2) := by
    rw [hst]
    exact storage_GetSlice_scanOk ctx w.store h
  rw [GetSlices_of_scan_ok u ctx w _ _ hs, SortNums_scan]

theorem PutNumber_ret_none {σ : Type} (u : UseCase σ) (ctx : Ctx) (n : Int) (w : World σ)
    (h : (u.PutNumber ctx n w).1 = .ret none) : (u.Storage.PutNumber ctx n w.store).1 = none := by
  unfold UseCase.PutNumber at h
  rcases hr : u.Storage.PutNumber ctx n w.store with ⟨_ | e, st⟩
  · rfl
  · rw [hr] at h
    cases hl : u.log <;> simp [hl, logError] at h

theorem PutNumbers_length {σ : Type} (u : UseCase σ) (ctx : Ctx) (vs : List Int) (w : World σ) :
    (u.PutNumbers ctx vs w).1.length = vs.length := by
  induction vs generalizing w with
  | nil => rfl
  | cons v vs ih => simp [UseCase.PutNumbers, ih]

/-- After calls that all returned nil, the rows are the rows before followed by the
values put, in the order of the calls. -/
theorem PutNumbers_nums (u : UseCase Db) (ctx : Ctx) (vs : List Int) (w : World Db)
    (hst : u.Storage = storage.Storage)
    (hok : ∀ o ∈ (u.PutNumbers ctx vs w).1, o = .ret none) :
    (u.PutNumbers ctx vs w).2.store.nums = w.store.nums ++ vs := by
  induction vs generalizing w with
  | nil => simp [UseCase.PutNumbers]
  | cons v vs ih =>
    simp only [UseCase.PutNumbers] at hok ⊢
    have h1 : (u.PutNumber ctx v w).1 = .ret none := hok _ (List.mem_cons_self _ _)
    have h2 := PutNumber_ret_none u ctx v w h1
    have h3 : (u.PutNumber ctx v w).2.store.nums = w.store.nums ++ [v] := by
      rw [PutNumber_store, hst]
      rw [hst] at h2
      have := storage_PutNumber_nums ctx v w.store
      have h2x : (storage.PutNumber ctx v w.store).1 = none := h2
      rw [if_pos h2x] at this
      exact this
    rw [ih (u.PutNumber ctx v w).2 (fun o ho => hok o (List.mem_cons_of_mem _ ho)), h3]
    simp

theorem scanRows_append (op : String) (xs : List Int) (rest : List (Except GoError Int))
    (acc : Slice) :
    storage.scanRows op (xs.map Except.ok ++ rest) acc
      = storage.scanRows op rest (if xs = [] then acc else some (acc.toList ++ xs)) := by
  induction xs generalizing acc with
  | nil => simp
  | cons x xs ih =>
    show storage.scanRows op (Except.ok x :: (xs.map Except.ok ++ rest)) acc = _
    rw [storage.scanRows, ih]
    simp only [Slice.append]
    by_cases hx : xs = []
    · simp [hx, Slice.toList]
    · simp [hx, Slice.toList]

/-- The method `GetSlice` in terms of the rows held and the server's answer. -/
theorem storage_GetSlice_eq (ctx : Ctx) (db : Db) :
    storage.GetSlice ctx db
      = match db.next.1.fail with
        | some e =>
          ((none, some (GoError.wrap "storage.GetSlice: could not fetch nums: " e)), db.next.2)
        | none =>
          match storage.scanRows "storage.GetSlice"
              (deliver db.next.1.badRow (permuteRows db.next.1.order db.nums)) none with
          | (_, some err) => ((none, some err), db.next.2)
          | (numbers, none) =>
            match db.next.1.iterErr with
            | some err =>
              ((none, some (GoError.wrap "storage.GetSlice: could not fetch nums: " err)),
                db.next.2)
            | none => ((numbers, none), db.next.2) := by
  have e1 := Db.next_nums db
  unfold storage.GetSlice Db.Query
  generalize db.next = p at *
  rcases p with ⟨⟨_ | e, k, bad, ie⟩, db1⟩
  · simp only at e1
    simp only [e1]
    rfl
  · rfl

/-- The scan uses up the server's answer and nothing else. -/
theorem storage_GetSlice_snd (ctx : Ctx) (db : Db) :
    (storage.GetSlice ctx db).2 = db.next.2 := by
  rw [storage_GetSlice_eq]
  cases db.next.1.fail with
  | some e => rfl
  | none =>
    simp only
    split
    · rfl
    · split <;> rfl

/-- The result of a scan is decided by the rows held and by the server's answer. -/
theorem storage_GetSlice_congr (ctx : Ctx) (db db2 : Db) (hn : db.nums = db2.nums)
    (hr : db.next.1 = db2.next.1) :
    (storage.GetSlice ctx db).1 = (storage.GetSlice ctx db2).1 := by
  rw [storage_GetSlice_eq, storage_GetSlice_eq, hn, hr]
  cases db2.next.1.fail with
  | some e => rfl
  | none =>
    simp only
    split
    · rfl
    · split <;> rfl

theorem deliver_scan_perm (bad : Option (Nat × GoError)) (l : List Int) (xs : Slice)
    (hs : storage.scanRows "storage.GetSlice" (deliver bad l) none = (xs, none)) :
    xs.toList = l := by
  rcases bad with _ | ⟨i, e⟩
  · simp only [deliver, scanRows_ok] at hs
    have hx := (Prod.mk.inj hs).1
    rw [← hx]
    by_cases hz : l = []
    · simp [hz, Slice.toList]
    · simp [hz, Slice.toList]
  · simp only [deliver] at hs
    by_cases hi : i < l.length
    · rw [if_pos hi, scanRows_append] at hs
      simp [storage.scanRows] at hs
    · rw [if_neg hi, List.append_nil, scanRows_ok, List.take_of_length_le (not_lt.1 hi)] at hs
      have hx := (Prod.mk.inj hs).1
      rw [← hx]
      by_cases hz : l = []
      · simp [hz, Slice.toList]
      · simp [hz, Slice.toList]

/-- A scan that returns a nil error returns the rows held, in some order. -/
theorem storage_GetSlice_perm (ctx : Ctx) (db : Db) (xs : Slice) (st : Db)
    (h : storage.GetSlice ctx db = ((xs, none), st)) : xs.toList.Perm db.nums := by
  rw [storage_GetSlice_eq] at h
  generalize db.next = p at h
  rcases p with ⟨⟨_ | e, k, bad, ie⟩, db1⟩
  · simp only at h
    rcases hs : storage.scanRows "storage.GetSlice" (deliver bad (permuteRows k db.nums)) none
      with ⟨ys, _ | e⟩
    · rw [hs] at h
      cases ie with
      | some e2 => simp at h
      | none =>
        simp only at h
        have hx := (Prod.mk.inj (Prod.mk.inj h).1).1
        rw [← hx, deliver_scan_perm bad _ ys hs]
        exact permuteRows_perm k db.nums
    · rw [hs] at h
      simp at h
  · simp at h

/-- The outcome of a listing is decided by the result of the scan (and by the logger). -/
theorem GetSlices_fst_congr {σ : Type} (u : UseCase σ) (ctx : Ctx) (w w2 : World σ)
    (h : (u.Storage.GetSlice ctx w.store).1 = (u.Storage.GetSlice ctx w2.store).1) :
    (u.GetSlices ctx w).1 = (u.GetSlices ctx w2).1 := by
  unfold UseCase.GetSlices
  rcases h1 : u.Storage.GetSlice ctx w.store with ⟨⟨xs, err⟩, st⟩
  rcases h2 : u.Storage.GetSlice ctx w2.store with ⟨⟨xs2, err2⟩, st2⟩
  rw [h1, h2] at h
  simp only at h
  obtain ⟨rfl, rfl⟩ := Prod.mk.inj h
  cases err with
  | some e => cases hl : u.log <;> simp [logError]
  | none =>
    simp only
    rw [SortNums_eq xs]

/-- The store after a listing is the store after the one scan. -/
theorem GetSlices_store {σ : Type} (u : UseCase σ) (ctx : Ctx) (w : World σ) :
    (u.GetSlices ctx w).2.store = (u.Storage.GetSlice ctx w.store).2 := by
  unfold UseCase.GetSlices
  rcases h1 : u.Storage.GetSlice ctx w.store with ⟨⟨xs, err⟩, st⟩
  cases err with
  | some e => cases hl : u.log <;> simp [logError]
  | none =>
    simp only
    rw [SortNums_eq xs]

/-- A listing that returns a nil error returns the elements the scan returned. -/
theorem GetSlices_ret_ok {σ : Type} (u : UseCase σ) (ctx : Ctx) (w : World σ) (r : Slice)
    (h : (u.GetSlices ctx w).1 = .ret (r, none)) :
    ∃ xs st, u.Storage.GetSlice ctx w.store = ((xs, none), st) ∧ r = (SortNums xs).1 := by
  rcases h1 : u.Storage.GetSlice ctx w.store with ⟨⟨xs, err⟩, st⟩
  cases err with
  | some e =>
    unfold UseCase.GetSlices at h
    rw [h1] at h
    cases hl : u.log <;> simp [hl, logError] at h
  | none =>
    rw [GetSlices_of_scan_ok u ctx w xs st h1] at h
    simp only [Outcome.ret.injEq, Prod.mk.injEq, and_true] at h
    exact ⟨xs, st, rfl, h.symm⟩

/-! ## The ordering contract of `GetSlices` -/

/-- C1: whenever `Storage.GetSlice` succeeds with a slice `xs`, `UseCase.GetSlices` returns
a slice with a nil error in which every adjacent pair `(a, b)` satisfies `a ≤ b`. -/
theorem C1_GetSlices_nondecreasing {σ : Type} (u : UseCase σ) (ctx : Ctx) (w : World σ)
    (xs : Slice) (st : σ) (h : u.Storage.GetSlice ctx w.store = ((xs, none), st)) :
    ∃ r : Slice, (u.GetSlices ctx w).1 = .ret (r, none) ∧ r.toList.Chain' (· ≤ ·) := by
  refine ⟨(SortNums xs).1, ?_, ?_⟩
  · rw [GetSlices_of_scan_ok u ctx w xs st h]
  · rw [SortNums_toList]
    exact List.Pairwise.chain' (slicesSort_sorted _)

/-- C1 at the slices of the tests: `[5,2,8,1,9]` gives `[1,2,5,8,9]` and `[-5,3,-1,0,-10]`
gives `[-10,-5,-1,0,3]`. -/
theorem C1_GetSlices_nondecreasing_witness :
    (stubStorage (some [5, 2, 8, 1, 9]) none none).GetSlice "ctx" []
        = ((some [5, 2, 8, 1, 9], none), [Call.get "ctx"])
      ∧ (∃ r : Slice,
          ((NewUseCase (some ⟨"text"⟩) (stubStorage (some [5, 2, 8, 1, 9]) none none)).GetSlices
              "ctx" { store := [], logs := [] }).1 = .ret (r, none)
            ∧ r.toList.Chain' (· ≤ ·))
      ∧ ((NewUseCase (some ⟨"text"⟩) (stubStorage (some [5, 2, 8, 1, 9]) none none)).GetSlices
            "ctx" { store := [], logs := [] }).1 = .ret (some [1, 2, 5, 8, 9], none)
      ∧ ((NewUseCase (some ⟨"text"⟩) (stubStorage (some [-5, 3, -1, 0, -10]) none none)).GetSlices
            "ctx" { store := [], logs := [] }).1 = .ret (some [-10, -5, -1, 0, 3], none) :=
  ⟨rfl,
    C1_GetSlices_nondecreasing
      (NewUseCase (some ⟨"text"⟩) (stubStorage (some [5, 2, 8, 1, 9]) none none))
      "ctx" { store := [], logs := [] } (some [5, 2, 8, 1, 9]) [Call.get "ctx"] rfl,
    by decide, by decide⟩

/-- C2: whenever `Storage.GetSlice` succeeds with a slice `xs`, `UseCase.GetSlices` returns
a permutation of `xs`: the same length, and every value as many times as in `xs`. -/
theorem C2_GetSlices_permutation {σ : Type} (u : UseCase σ) (ctx : Ctx) (w : World σ)
    (xs : Slice) (st : σ) (h : u.Storage.GetSlice ctx w.store = ((xs, none), st)) :
    ∃ r : Slice, (u.GetSlices ctx w).1 = .ret (r, none)
      ∧ r.toList.Perm xs.toList
      ∧ r.len = xs.len
      ∧ ∀ v : Int, r.toList.count v = xs.toList.count v := by
  have hp : (SortNums xs).1.toList.Perm xs.toList := by
    rw [SortNums_toList]
    exact slicesSort_perm _
  refine ⟨(SortNums xs).1, ?_, hp, hp.length_eq, fun v => hp.count_eq v⟩
  rw [GetSlices_of_scan_ok u ctx w xs st h]

/-- C2 at the slice of the duplicates test: `[5,2,5,1,2,9]` gives `[1,2,2,5,5,9]`. -/
theorem C2_GetSlices_permutation_witness :
    (stubStorage (some [5, 2, 5, 1, 2, 9]) none none).GetSlice "ctx" []
        = ((some [5, 2, 5, 1, 2, 9], none), [Call.get "ctx"])
      ∧ (∃ r : Slice,
          ((NewUseCase (some ⟨"text"⟩) (stubStorage (some [5, 2, 5, 1, 2, 9]) none none)).GetSlices
              "ctx" { store := [], logs := [] }).1 = .ret (r, none)
            ∧ r.toList.Perm (Slice.toList (some [5, 2, 5, 1, 2, 9]))
            ∧ r.len = Slice.len (some [5, 2, 5, 1, 2, 9])
            ∧ ∀ v : Int, r.toList.count v = (Slice.toList (some [5, 2, 5, 1, 2, 9])).count v)
      ∧ ((NewUseCase (some ⟨"text"⟩) (stubStorage (some [5, 2, 5, 1, 2, 9]) none none)).GetSlices
            "ctx" { store := [], logs := [] }).1 = .ret (some [1, 2, 2, 5, 5, 9], none) :=
  ⟨rfl,
    C2_GetSlices_permutation
      (NewUseCase (some ⟨"text"⟩) (stubStorage (some [5, 2, 5, 1, 2, 9]) none none))
      "ctx" { store := [], logs := [] } (some [5, 2, 5, 1, 2, 9]) [Call.get "ctx"] rfl,
    by decide⟩

/-! ## Errors and delegation -/

/-- C4, as the code has it: for a use case that has a logger, `UseCase.GetSlices` returns, and the error it
returns is exactly the error result of `Storage.GetSlice` (nil when that is nil, the very
same error otherwise); with a non-nil error the slice returned is nil. `SortNums` returns
a nil error for every input. -/
theorem C4_GetSlices_error_iff_storage_error {σ : Type} (u : UseCase σ) (lg : Logger)
    (ctx : Ctx) (w : World σ) (hlog : u.log = some lg) :
    (∃ (r : Slice) (err : Option GoError), (u.GetSlices ctx w).1 = .ret (r, err)
        ∧ err = (u.Storage.GetSlice ctx w.store).1.2
        ∧ (err ≠ none → r = none))
      ∧ ∀ numbers : Slice, (SortNums numbers).2 = none := by
  refine ⟨?_, SortNums_snd⟩
  rcases hr : u.Storage.GetSlice ctx w.store with ⟨⟨xs, _ | e⟩, st⟩
  · exact ⟨(SortNums xs).1, none, by rw [GetSlices_of_scan_ok u ctx w xs st hr], rfl,
      fun hne => absurd rfl hne⟩
  · exact ⟨none, some e, by rw [GetSlices_of_scan_err u lg ctx w xs e st hlog hr], rfl,
      fun _ => rfl⟩

/-- C4 at the storage error test: the storage fails with "database connection failed" and
`GetSlices` returns the nil slice with that error. -/
theorem C4_GetSlices_error_iff_storage_error_witness :
    (NewUseCase (some ⟨"text"⟩)
        (stubStorage none none (some (GoError.mk "database connection failed")))).log
        = some ⟨"text"⟩
      ∧ ((∃ (r : Slice) (err : Option GoError),
          ((NewUseCase (some ⟨"text"⟩)
              (stubStorage none none (some (GoError.mk "database connection failed")))).GetSlices
              "ctx" { store := [], logs := [] }).1 = .ret (r, err)
            ∧ err = ((NewUseCase (some ⟨"text"⟩)
                (stubStorage none none
                  (some (GoError.mk "database connection failed")))).Storage.GetSlice "ctx" []).1.2
            ∧ (err ≠ none → r = none))
        ∧ ∀ numbers : Slice, (SortNums numbers).2 = none)
      ∧ ((NewUseCase (some ⟨"text"⟩)
            (stubStorage none none (some (GoError.mk "database connection failed")))).GetSlices
            "ctx" { store := [], logs := [] }).1
          = .ret (none, some (GoError.mk "database connection failed")) :=
  ⟨rfl,
    C4_GetSlices_error_iff_storage_error
      (NewUseCase (some ⟨"text"⟩)
        (stubStorage none none (some (GoError.mk "database connection failed"))))
      ⟨"text"⟩ "ctx" { store := [], logs := [] } rfl,
    by decide⟩

/-- C5, as the code has it: for a use case that has a logger, every context and every integer `n`,
`UseCase.PutNumber ctx n` returns exactly the result of `Storage.PutNumber ctx n` (nil or
the storage's own error), and the store it leaves is the store after that one call on the
store it found. -/
theorem C5_PutNumber_delegates_once {σ : Type} (u : UseCase σ) (lg : Logger) (ctx : Ctx)
    (n : Int) (w : World σ) (hlog : u.log = some lg) :
    (u.PutNumber ctx n w).1 = .ret (u.Storage.PutNumber ctx n w.store).1
      ∧ (u.PutNumber ctx n w).2.store = (u.Storage.PutNumber ctx n w.store).2 :=
  ⟨PutNumber_ret u lg ctx n w hlog, PutNumber_store u ctx n w⟩

/-- C5 on a recording test double that fails with "database write failed", at the least
int32: one call is recorded, with the context and the value given, and its error comes
back. -/
theorem C5_PutNumber_delegates_once_witness :
    (NewUseCase (some ⟨"text"⟩)
        (stubStorage none (some (GoError.mk "database write failed")) none)).log = some ⟨"text"⟩
      ∧ (((NewUseCase (some ⟨"text"⟩)
            (stubStorage none (some (GoError.mk "database write failed")) none)).PutNumber
            "request-id=12345" (-2147483648) { store := [], logs := [] }).1
          = .ret ((NewUseCase (some ⟨"text"⟩)
              (stubStorage none (some (GoError.mk "database write failed")) none)).Storage.PutNumber
              "request-id=12345" (-2147483648) []).1
        ∧ ((NewUseCase (some ⟨"text"⟩)
            (stubStorage none (some (GoError.mk "database write failed")) none)).PutNumber
            "request-id=12345" (-2147483648) { store := [], logs := [] }).2.store
          = ((NewUseCase (some ⟨"text"⟩)
              (stubStorage none (some (GoError.mk "database write failed")) none)).Storage.PutNumber
              "request-id=12345" (-2147483648) []).2)
      ∧ ((NewUseCase (some ⟨"text"⟩)
            (stubStorage none (some (GoError.mk "database write failed")) none)).PutNumber
            "request-id=12345" (-2147483648) { store := [], logs := [] }).1
          = .ret (some (GoError.mk "database write failed"))
      ∧ ((NewUseCase (some ⟨"text"⟩)
            (stubStorage none (some (GoError.mk "database write failed")) none)).PutNumber
            "request-id=12345" (-2147483648) { store := [], logs := [] }).2.store
          = [Call.put "request-id=12345" (-2147483648)] :=
  ⟨rfl,
    C5_PutNumber_delegates_once
      (NewUseCase (some ⟨"text"⟩)
        (stubStorage none (some (GoError.mk "database write failed")) none))
      ⟨"text"⟩ "request-id=12345" (-2147483648) { store := [], logs := [] } rfl,
    by decide, by decide⟩

/-- C4 as stated fails on a use case without a logger: `Storage.GetSlice` returns the
error "database connection failed", and `GetSlices` does not return that error (nor any
result): it panics at `u.log.Error`. -/
theorem C4_counterexample_nil_logger :
    ((NewUseCase none
          (stubStorage none none (some (GoError.mk "database connection failed")))).Storage.GetSlice
          "ctx" []).1.2 = some (GoError.mk "database connection failed")
      ∧ ((NewUseCase none
            (stubStorage none none (some (GoError.mk "database connection failed")))).GetSlices
            "ctx" { store := [], logs := [] }).1 = .panic nilDeref
      ∧ ∀ (r : Slice) (err : Option GoError),
          ((NewUseCase none
            (stubStorage none none (some (GoError.mk "database connection failed")))).GetSlices
            "ctx" { store := [], logs := [] }).1 ≠ .ret (r, err) := by
  refine ⟨by decide, by decide, ?_⟩
  intro r err h
  have hp : ((NewUseCase none
      (stubStorage none none (some (GoError.mk "database connection failed")))).GetSlices
      "ctx" { store := [], logs := [] }).1 = .panic nilDeref := by decide
  rw [hp] at h
  cases h

/-- C5 as stated fails on a use case without a logger: the one call to `Storage.PutNumber`
is made and returns the error "database write failed", and `PutNumber` does not return
what that call returned: it panics at `u.log.Error`. -/
theorem C5_counterexample_nil_logger :
    ((NewUseCase none
          (stubStorage none (some (GoError.mk "database write failed")) none)).Storage.PutNumber
          "ctx" 42 []).1 = some (GoError.mk "database write failed")
      ∧ ((NewUseCase none
            (stubStorage none (some (GoError.mk "database write failed")) none)).PutNumber
            "ctx" 42 { store := [], logs := [] }).1 = .panic nilDeref
      ∧ ((NewUseCase none
            (stubStorage none (some (GoError.mk "database write failed")) none)).PutNumber
            "ctx" 42 { store := [], logs := [] }).1
          ≠ .ret (some (GoError.mk "database write failed"))
      ∧ ((NewUseCase none
            (stubStorage none (some (GoError.mk "database write failed")) none)).PutNumber
            "ctx" 42 { store := [], logs := [] }).2.store = [Call.put "ctx" 42] := by
  decide

/-- C6: when `Storage.GetSlice` succeeds with a slice of length 0 (empty or nil),
`UseCase.GetSlices` returns that slice with a nil error, and it has no elements. -/
theorem C6_GetSlices_empty_store {σ : Type} (u : UseCase σ) (ctx : Ctx) (w : World σ)
    (xs : Slice) (st : σ) (h : u.Storage.GetSlice ctx w.store = ((xs, none), st))
    (hempty : xs.len = 0) :
    (u.GetSlices ctx w).1 = .ret (xs, none) ∧ xs.toList = [] := by
  have h0 : (SortNums xs).1 = xs := by
    unfold SortNums
    rw [if_pos (by omega)]
  refine ⟨?_, List.length_eq_zero.1 hempty⟩
  rw [GetSlices_of_scan_ok u ctx w xs st h, h0]

/-- C6 at the empty slice of the test, on a use case without a logger. -/
theorem C6_GetSlices_empty_store_witness :
    (stubStorage (some []) none none).GetSlice "ctx" [] = ((some [], none), [Call.get "ctx"])
      ∧ Slice.len (some []) = 0
      ∧ ((NewUseCase none (stubStorage (some []) none none)).GetSlices
            "ctx" { store := [], logs := [] }).1 = .ret (some [], none)
      ∧ Slice.toList (some []) = [] :=
  ⟨rfl, rfl,
    C6_GetSlices_empty_store (NewUseCase none (stubStorage (some []) none none))
      "ctx" { store := [], logs := [] } (some []) [Call.get "ctx"] rfl rfl⟩

/-! ## The append-only store -/

/-- C3: on the Postgres storage over an append-only store that holds no entry, after
`PutNumber` calls with the values `vs` that all returned nil, a listing whose scan does
not fail returns a slice of exactly `vs.length` values in which every value occurs as
many times as in `vs`; in particular every accepted value occurs in it. -/
theorem C3_accepted_values_are_listed (u : UseCase Db) (ctx : Ctx) (vs : List Int)
    (w : World Db) (hst : u.Storage = storage.Storage) (hempty : w.store.nums = [])
    (hok : ∀ o ∈ (u.PutNumbers ctx vs w).1, o = .ret none)
    (hscan : (u.PutNumbers ctx vs w).2.store.next.1.scanOk) :
    ∃ r : Slice, (u.GetSlices ctx (u.PutNumbers ctx vs w).2).1 = .ret (r, none)
      ∧ r.len = vs.length
      ∧ (∀ v : Int, r.toList.count v = vs.count v)
      ∧ ∀ v ∈ vs, v ∈ r.toList := by
  have hn : (u.PutNumbers ctx vs w).2.store.nums = vs := by
    rw [PutNumbers_nums u ctx vs w hst hok, hempty, List.nil_append]
  have hp : ∀ r : Slice, r = (if vs = [] then none else some (slicesSort vs)) →
      r.toList.Perm vs := by
    intro r hr
    by_cases hz : vs = []
    · simp [hr, hz, Slice.toList]
    · simpa [hr, hz, Slice.toList] using slicesSort_perm vs
  refine ⟨if vs = [] then none else some (slicesSort vs), ?_, ?_, ?_, ?_⟩
  · rw [GetSlices_scanOk u ctx _ hst hscan, hn]
  · exact (hp _ rfl).length_eq
  · exact fun v => (hp _ rfl).count_eq v
  · exact fun v hv => (hp _ rfl).symm.subset hv

/-- C3 at the scenario `Accept(5), Accept(2), Accept(5)`: the listing is `[2,5,5]`. -/
theorem C3_accepted_values_are_listed_witness :
    (NewUseCase (some ⟨"json"⟩) storage.Storage).Storage = storage.Storage
      ∧ (({ store := { nums := [], tape := [] }, logs := [] } : World Db)).store.nums = []
      ∧ (∀ o ∈ ((NewUseCase (some ⟨"json"⟩) storage.Storage).PutNumbers "ctx" [5, 2, 5]
            { store := { nums := [], tape := [] }, logs := [] }).1, o = .ret none)
      ∧ (∃ r : Slice,
          ((NewUseCase (some ⟨"json"⟩) storage.Storage).GetSlices "ctx"
              ((NewUseCase (some ⟨"json"⟩) storage.Storage).PutNumbers "ctx" [5, 2, 5]
                { store := { nums := [], tape := [] }, logs := [] }).2).1 = .ret (r, none)
            ∧ r.len = [5, 2, 5].length
            ∧ (∀ v : Int, r.toList.count v = [5, 2, 5].count v)
            ∧ ∀ v ∈ [5, 2, 5], v ∈ r.toList)
      ∧ ((NewUseCase (some ⟨"json"⟩) storage.Storage).GetSlices "ctx"
            ((NewUseCase (some ⟨"json"⟩) storage.Storage).PutNumbers "ctx" [5, 2, 5]
              { store := { nums := [], tape := [] }, logs := [] }).2).1
          = .ret (some [2, 5, 5], none) :=
  ⟨rfl, rfl, by decide,
    C3_accepted_values_are_listed (NewUseCase (some ⟨"json"⟩) storage.Storage) "ctx" [5, 2, 5]
      { store := { nums := [], tape := [] }, logs := [] } rfl rfl (by decide) (by decide),
    by decide⟩

/-- C7, as the code has it: on the Postgres storage over an append-only store, for a use
case that has a logger: when the `INSERT` of `PutNumber ctx n` fails with `e`, `PutNumber` returns a
non-nil error (the storage's error around `e`) and the rows held are those held before.
A listing after the call therefore has the outcome it has on any store with the rows held
before that is given the same answer by the server, and when it returns a slice, a number
absent from the rows before is absent from that slice. -/
theorem C7_failed_append_changes_nothing (u : UseCase Db) (lg : Logger) (ctx : Ctx) (n : Int)
    (w : World Db) (e : GoError) (hst : u.Storage = storage.Storage) (hlog : u.log = some lg)
    (hfail : w.store.next.1.fail = some e) :
    (u.PutNumber ctx n w).1
        = .ret (some (GoError.wrap "storage.PutNumber: could not store num: " e))
      ∧ (u.PutNumber ctx n w).2.store.nums = w.store.nums
      ∧ (∀ w0 : World Db, w0.store.nums = w.store.nums →
          w0.store.next.1 = (u.PutNumber ctx n w).2.store.next.1 →
          (u.GetSlices ctx (u.PutNumber ctx n w).2).1 = (u.GetSlices ctx w0).1)
      ∧ (∀ r : Slice, (u.GetSlices ctx (u.PutNumber ctx n w).2).1 = .ret (r, none) →
          n ∉ w.store.nums → n ∉ r.toList) := by
  have hput : storage.PutNumber ctx n w.store
      = (some (GoError.wrap "storage.PutNumber: could not store num: " e), w.store.next.2) := by
    rw [storage_PutNumber_eq, hfail]
  have hnums : (u.PutNumber ctx n w).2.store.nums = w.store.nums := by
    rw [PutNumber_store, hst]
    show (storage.PutNumber ctx n w.store).2.nums = w.store.nums
    rw [hput]
    exact Db.next_nums _
  refine ⟨?_, hnums, ?_, ?_⟩
  · rw [PutNumber_ret u lg ctx n w hlog, hst]
    show Outcome.ret (storage.PutNumber ctx n w.store).1 = _
    rw [hput]
  · intro w0 h0 hr
    apply GetSlices_fst_congr
    rw [hst]
    exact storage_GetSlice_congr ctx _ _ (hnums.trans h0.symm) hr.symm
  · intro r hr hn hmem
    obtain ⟨xs, st, hscan, rfl⟩ := GetSlices_ret_ok u ctx _ r hr
    rw [hst] at hscan
    have hp : xs.toList.Perm (u.PutNumber ctx n w).2.store.nums :=
      storage_GetSlice_perm ctx _ xs st hscan
    rw [SortNums_toList] at hmem
    have h1 : n ∈ xs.toList := (slicesSort_perm _).subset hmem
    have h2 : n ∈ (u.PutNumber ctx n w).2.store.nums := hp.subset h1
    rw [hnums] at h2
    exact hn h2

/-- C7 at the scenario of the specification: the append fails on `Accept(42)` on an
empty store, and the listing that follows returns no element. -/
theorem C7_failed_append_changes_nothing_witness :
    (NewUseCase (some ⟨"json"⟩) storage.Storage).Storage = storage.Storage
      ∧ (NewUseCase (some ⟨"json"⟩) storage.Storage).log = some ⟨"json"⟩
      ∧ (({ store := { nums := []
                       tape := [{ fail := some (GoError.mk "connection refused")
                                  order := 0, badRow := none, iterErr := none }] }
            logs := [] } : World Db)).store.next.1.fail
          = some (GoError.mk "connection refused")
      ∧ (((NewUseCase (some ⟨"json"⟩) storage.Storage).PutNumber "ctx" 42
            { store := { nums := []
                         tape := [{ fail := some (GoError.mk "connection refused")
                                    order := 0, badRow := none, iterErr := none }] }
              logs := [] }).1
          = .ret (some (GoError.wrap "storage.PutNumber: could not store num: "
              (GoError.mk "connection refused")))
        ∧ ((NewUseCase (some ⟨"json"⟩) storage.Storage).PutNumber "ctx" 42
            { store := { nums := []
                         tape := [{ fail := some (GoError.mk "connection refused")
                                    order := 0, badRow := none, iterErr := none }] }
              logs := [] }).2.store.nums
          = (({ store := { nums := []
                           tape := [{ fail := some (GoError.mk "connection refused")
                                      order := 0, badRow := none, iterErr := none }] }
                logs := [] } : World Db)).store.nums
        ∧ (∀ w0 : World Db,
            w0.store.nums
              = (({ store := { nums := []
                               tape := [{ fail := some (GoError.mk "connection refused")
                                          order := 0, badRow := none, iterErr := none }] }
                    logs := [] } : World Db)).store.nums →
            w0.store.next.1
              = ((NewUseCase (some ⟨"json"⟩) storage.Storage).PutNumber "ctx" 42
                  { store := { nums := []
                               tape := [{ fail := some (GoError.mk "connection refused")
                                          order := 0, badRow := none, iterErr := none }] }
                    logs := [] }).2.store.next.1 →
            ((NewUseCase (some ⟨"json"⟩) storage.Storage).GetSlices "ctx"
                ((NewUseCase (some ⟨"json"⟩) storage.Storage).PutNumber "ctx" 42
                  { store := { nums := []
                               tape := [{ fail := some (GoError.mk "connection refused")
                                          order := 0, badRow := none, iterErr := none }] }
                    logs := [] }).2).1
              = ((NewUseCase (some ⟨"json"⟩) storage.Storage).GetSlices "ctx" w0).1)
        ∧ (∀ r : Slice,
            ((NewUseCase (some ⟨"json"⟩) storage.Storage).GetSlices "ctx"
                ((NewUseCase (some ⟨"json"⟩) storage.Storage).PutNumber "ctx" 42
                  { store := { nums := []
                               tape := [{ fail := some (GoError.mk "connection refused")
                                          order := 0, badRow := none, iterErr := none }] }
                    logs := [] }).2).1 = .ret (r, none) →
            42 ∉ (({ store := { nums := []
                                tape := [{ fail := some (GoError.mk "connection refused")
                                           order := 0, badRow := none, iterErr := none }] }
                     logs := [] } : World Db)).store.nums →
            42 ∉ r.toList))
      ∧ ((NewUseCase (some ⟨"json"⟩) storage.Storage).GetSlices "ctx"
            ((NewUseCase (some ⟨"json"⟩) storage.Storage).PutNumber "ctx" 42
              { store := { nums := []
                           tape := [{ fail := some (GoError.mk "connection refused")
                                      order := 0, badRow := none, iterErr := none }] }
                logs := [] }).2).1 = .ret (none, none) :=
  ⟨rfl, rfl, rfl,
    C7_failed_append_changes_nothing (NewUseCase (some ⟨"json"⟩) storage.Storage) ⟨"json"⟩
      "ctx" 42
      { store := { nums := []
                   tape := [{ fail := some (GoError.mk "connection refused")
                              order := 0, badRow := none, iterErr := none }] }
        logs := [] }
      (GoError.mk "connection refused") rfl rfl rfl,
    by decide⟩

/-- C7 as stated fails on a use case without a logger: the `INSERT` of `Accept(42)` fails
on an empty store, and `PutNumber` does not return an error: it panics at `u.log.Error`
(the rows held stay as they were). -/
theorem C7_counterexample_nil_logger :
    (({ store := { nums := []
                   tape := [{ fail := some (GoError.mk "connection refused")
                              order := 0, badRow := none, iterErr := none }] }
        logs := [] } : World Db)).store.next.1.fail = some (GoError.mk "connection refused")
      ∧ ((NewUseCase none storage.Storage).PutNumber "ctx" 42
            { store := { nums := []
                         tape := [{ fail := some (GoError.mk "connection refused")
                                    order := 0, badRow := none, iterErr := none }] }
              logs := [] }).1 = .panic nilDeref
      ∧ (∀ err : Option GoError,
          ((NewUseCase none storage.Storage).PutNumber "ctx" 42
            { store := { nums := []
                         tape := [{ fail := some (GoError.mk "connection refused")
                                    order := 0, badRow := none, iterErr := none }] }
              logs := [] }).1 ≠ .ret err)
      ∧ ((NewUseCase none storage.Storage).PutNumber "ctx" 42
            { store := { nums := []
                         tape := [{ fail := some (GoError.mk "connection refused")
                                    order := 0, badRow := none, iterErr := none }] }
              logs := [] }).2.store.nums = [] := by
  refine ⟨by decide, by decide, ?_, by decide⟩
  intro err h
  have hp : ((NewUseCase none storage.Storage).PutNumber "ctx" 42
      { store := { nums := []
                   tape := [{ fail := some (GoError.mk "connection refused")
                              order := 0, badRow := none, iterErr := none }] }
        logs := [] }).1 = .panic nilDeref := by decide
  rw [hp] at h
  cases h

/-- C8: on the Postgres storage over an append-only store, two listings in a row whose
scans do not fail (in whatever row orders) return the same slice; a listing, failed or
not, leaves the rows held as they were; and `SortNums` applied to its own result returns
that result. -/
theorem C8_read_is_idempotent (u : UseCase Db) (ctx : Ctx) (w : World Db)
    (hst : u.Storage = storage.Storage) (h1 : w.store.next.1.scanOk)
    (h2 : (u.GetSlices ctx w).2.store.next.1.scanOk) :
    (∃ r : Slice, (u.GetSlices ctx w).1 = .ret (r, none)
        ∧ (u.GetSlices ctx (u.GetSlices ctx w).2).1 = .ret (r, none))
      ∧ (∀ w0 : World Db, (u.GetSlices ctx w0).2.store.nums = w0.store.nums)
      ∧ ∀ xs : Slice, SortNums (SortNums xs).1 = SortNums xs := by
  have hkeep : ∀ w0 : World Db, (u.GetSlices ctx w0).2.store.nums = w0.store.nums := by
    intro w0
    rw [GetSlices_store, hst]
    show (storage.GetSlice ctx w0.store).2.nums = w0.store.nums
    rw [storage_GetSlice_snd, Db.next_nums]
  refine ⟨⟨if w.store.nums = [] then none else some (slicesSort w.store.nums), ?_, ?_⟩,
    hkeep, ?_⟩
  · rw [GetSlices_scanOk u ctx w hst h1]
  · rw [GetSlices_scanOk u ctx _ hst h2, hkeep w]
  · intro xs
    cases xs with
    | none => rfl
    | some l =>
      rw [SortNums_eq (SortNums (some l)).1, SortNums_eq (some l), SortNums_some,
        SortNums_some, slicesSort_of_sorted (slicesSort_sorted l)]

/-- C8 on a store holding `5, 2, 8` whose first scan yields `[5,2,8]` and whose second scan
yields `[8,5,2]`: both listings return `[2,5,8]`. -/
theorem C8_read_is_idempotent_witness :
    (NewUseCase none storage.Storage).Storage = storage.Storage
      ∧ (({ store := { nums := [5, 2, 8]
                       tape := [{ fail := none, order := 0, badRow := none, iterErr := none },
                                { fail := none, order := 4, badRow := none, iterErr := none }] }
            logs := [] } : World Db)).store.next.1.scanOk
      ∧ ((NewUseCase none storage.Storage).GetSlices "ctx"
            { store := { nums := [5, 2, 8]
                         tape := [{ fail := none, order := 0, badRow := none, iterErr := none },
                                  { fail := none, order := 4, badRow := none, iterErr := none }] }
              logs := [] }).2.store.next.1.scanOk
      ∧ ((∃ r : Slice,
            ((NewUseCase none storage.Storage).GetSlices "ctx"
              { store := { nums := [5, 2, 8]
                           tape := [{ fail := none, order := 0, badRow := none, iterErr := none },
                                    { fail := none, order := 4, badRow := none, iterErr := none }] }
                logs := [] }).1 = .ret (r, none)
            ∧ ((NewUseCase none storage.Storage).GetSlices "ctx"
                ((NewUseCase none storage.Storage).GetSlices "ctx"
                  { store := { nums := [5, 2, 8]
                               tape := [{ fail := none, order := 0, badRow := none, iterErr := none },
                                        { fail := none, order := 4, badRow := none, iterErr := none }] }
                    logs := [] }).2).1 = .ret (r, none))
        ∧ (∀ w0 : World Db,
            ((NewUseCase none storage.Storage).GetSlices "ctx" w0).2.store.nums = w0.store.nums)
        ∧ ∀ xs : Slice, SortNums (SortNums xs).1 = SortNums xs)
      ∧ (storage.GetSlice "ctx" { nums := [5, 2, 8], tape := [] }).1 = (some [5, 2, 8], none)
      ∧ (storage.GetSlice "ctx"
            { nums := [5, 2, 8]
              tape := [{ fail := none, order := 4, badRow := none, iterErr := none }] }).1
          = (some [8, 5, 2], none)
      ∧ ((NewUseCase none storage.Storage).GetSlices "ctx"
            ((NewUseCase none storage.Storage).GetSlices "ctx"
              { store := { nums := [5, 2, 8]
                           tape := [{ fail := none, order := 0, badRow := none, iterErr := none },
                                    { fail := none, order := 4, badRow := none, iterErr := none }] }
                logs := [] }).2).1 = .ret (some [2, 5, 8], none) :=
  ⟨rfl, by decide, by decide,
    C8_read_is_idempotent (NewUseCase none storage.Storage) "ctx"
      { store := { nums := [5, 2, 8]
                   tape := [{ fail := none, order := 0, badRow := none, iterErr := none },
                            { fail := none, order := 4, badRow := none, iterErr := none }] }
        logs := [] }
      rfl (by decide) (by decide),
    by decide, by decide, by decide⟩

/-! ## The errors returned by the use case -/

/-- No error value wraps itself. -/
theorem GoError.Unwrap_ne_self (e : GoError) : e.Unwrap ≠ some e := by
  intro h
  have hd : ∀ a b : GoError, a.Unwrap = some b → a.depth = b.depth + 1 := by
    intro a b hab
    cases a with
    | mk t => simp [GoError.Unwrap] at hab
    | wrap p c =>
      simp only [GoError.Unwrap, Option.some.injEq] at hab
      rw [← hab]
      rfl
  have := hd e e h
  omega

/-- A scan loop that ends with an error met a bad row, and the error is the row's scan
error wrapped under the name of the storage operation. -/
theorem scanRows_deliver_err (bad : Option (Nat × GoError)) (l : List Int) (ys : Slice)
    (e : GoError)
    (hs : storage.scanRows "storage.GetSlice" (deliver bad l) none = (ys, some e)) :
    ∃ (i : Nat) (cause : GoError), bad = some (i, cause) ∧ i < l.length
      ∧ e = GoError.wrap "storage.GetSlice: could not fetch nums: " cause := by
  rcases bad with _ | ⟨i, c⟩
  · simp only [deliver, scanRows_ok] at hs
    simp at hs
  · simp only [deliver] at hs
    by_cases hi : i < l.length
    · rw [if_pos hi, scanRows_append] at hs
      simp only [storage.scanRows, Prod.mk.injEq, Option.some.injEq] at hs
      exact ⟨i, c, rfl, hi, hs.2.symm⟩
    · rw [if_neg hi, List.append_nil, scanRows_ok] at hs
      simp at hs

/-- A scan loop that meets a bad row ends with that row's scan error, wrapped. -/
theorem scanRows_deliver_bad (i : Nat) (cause : GoError) (l : List Int) (hi : i < l.length) :
    storage.scanRows "storage.GetSlice" (deliver (some (i, cause)) l) none
      = (none, some (GoError.wrap "storage.GetSlice: could not fetch nums: " cause)) := by
  simp only [deliver]
  rw [if_pos hi, scanRows_append]
  rfl

/-- C9, as the code has it: whenever `PutNumber` or `GetSlices` returns a non-nil error
after the storage failed with `e`, the error returned is `e` itself and not an error that
wraps `e`. A use case that has a logger returns that error and appends one log record,
which is where the name of the use case operation goes (`useCase.PutNumber`,
`useCase.GetSlices`), next to the text of `e`. Every non-nil error of the Postgres storage
is the error of the pool (from `Exec`, from `Query`, from `rows.Scan` at a bad row or from
`rows.Err`) wrapped under the name of the storage operation, and each of these failures
yields such an error. -/
theorem C9_returned_error_is_the_storage_error {σ : Type} (u : UseCase σ) (ctx : Ctx)
    (n : Int) (w : World σ) :
    (∀ e r : GoError, (u.Storage.PutNumber ctx n w.store).1 = some e →
        (u.PutNumber ctx n w).1 = .ret (some r) → r = e ∧ r.Unwrap ≠ some e)
      ∧ (∀ (e r : GoError) (s : Slice), (u.Storage.GetSlice ctx w.store).1.2 = some e →
        (u.GetSlices ctx w).1 = .ret (s, some r) → r = e ∧ r.Unwrap ≠ some e)
      ∧ (∀ (lg : Logger) (e : GoError), u.log = some lg →
        (u.Storage.PutNumber ctx n w.store).1 = some e →
        (u.PutNumber ctx n w).1 = .ret (some e)
          ∧ (u.PutNumber ctx n w).2.logs
            = w.logs ++ [{ msg := "failed to put number"
                           args := ["op", "useCase.PutNumber", "error", e.Error] }])
      ∧ (∀ (lg : Logger) (e : GoError), u.log = some lg →
        (u.Storage.GetSlice ctx w.store).1.2 = some e →
        (u.GetSlices ctx w).1 = .ret (none, some e)
          ∧ (u.GetSlices ctx w).2.logs
            = w.logs ++ [{ msg := "failed to get slices"
                           args := ["useCase.GetSlices", e.Error] }])
      ∧ (∀ (db : Db) (e : GoError), (storage.PutNumber ctx n db).1 = some e →
        ∃ cause : GoError, db.next.1.fail = some cause
          ∧ e = GoError.wrap "storage.PutNumber: could not store num: " cause
          ∧ e.Unwrap = some cause
          ∧ e.Error = "storage.PutNumber: could not store num: " ++ cause.Error)
      ∧ (∀ (db : Db) (e : GoError), (storage.GetSlice ctx db).1.2 = some e →
        ∃ cause : GoError,
          (db.next.1.fail = some cause
              ∨ (∃ i : Nat, db.next.1.badRow = some (i, cause) ∧ i < db.nums.length)
              ∨ db.next.1.iterErr = some cause)
            ∧ e = GoError.wrap "storage.GetSlice: could not fetch nums: " cause
            ∧ e.Unwrap = some cause
            ∧ e.Error = "storage.GetSlice: could not fetch nums: " ++ cause.Error)
      ∧ (∀ (db : Db) (cause : GoError), db.next.1.fail = some cause →
        (storage.PutNumber ctx n db).1
            = some (GoError.wrap "storage.PutNumber: could not store num: " cause)
          ∧ (storage.GetSlice ctx db).1
            = (none, some (GoError.wrap "storage.GetSlice: could not fetch nums: " cause)))
      ∧ (∀ (db : Db) (i : Nat) (cause : GoError), db.next.1.fail = none →
        db.next.1.badRow = some (i, cause) → i < db.nums.length →
        (storage.GetSlice ctx db).1
          = (none, some (GoError.wrap "storage.GetSlice: could not fetch nums: " cause)))
      ∧ (∀ (db : Db) (cause : GoError), db.next.1.fail = none → db.next.1.badRow = none →
        db.next.1.iterErr = some cause →
        (storage.GetSlice ctx db).1
          = (none, some (GoError.wrap "storage.GetSlice: could not fetch nums: " cause))) := by
  refine ⟨?_, ?_, ?_, ?_, ?_, ?_, ?_, ?_, ?_⟩
  · intro e r he hr
    unfold UseCase.PutNumber at hr
    rcases hs : u.Storage.PutNumber ctx n w.store with ⟨_ | e2, st⟩
    · rw [hs] at he
      simp at he
    · rw [hs] at he hr
      simp only [Option.some.injEq] at he
      subst he
      cases hl : u.log with
      | none => simp [hl, logError] at hr
      | some lg =>
        simp only [hl, logError, Outcome.ret.injEq, Option.some.injEq] at hr
        subst hr
        exact ⟨rfl, GoError.Unwrap_ne_self _⟩
  · intro e r s he hr
    unfold UseCase.GetSlices at hr
    rcases hs : u.Storage.GetSlice ctx w.store with ⟨⟨xs, _ | e2⟩, st⟩
    · rw [hs] at he
      simp at he
    · rw [hs] at he hr
      simp only [Option.some.injEq] at he
      subst he
      cases hl : u.log with
      | none => simp [hl, logError] at hr
      | some lg =>
        simp only [hl, logError, Outcome.ret.injEq, Prod.mk.injEq, Option.some.injEq] at hr
        obtain ⟨_, hr⟩ := hr
        subst hr
        exact ⟨rfl, GoError.Unwrap_ne_self _⟩
  · intro lg e hlog he
    unfold UseCase.PutNumber
    rcases hs : u.Storage.PutNumber ctx n w.store with ⟨_ | e2, st⟩
    · rw [hs] at he
      simp at he
    · rw [hs] at he
      simp only [Option.some.injEq] at he
      subst he
      simp [hlog, logError]
  · intro lg e hlog he
    rcases hs : u.Storage.GetSlice ctx w.store with ⟨⟨xs, _ | e2⟩, st⟩
    · rw [hs] at he
      simp at he
    · rw [hs] at he
      simp only [Option.some.injEq] at he
      subst he
      rw [GetSlices_of_scan_err u lg ctx w xs e2 st hlog hs]
      exact ⟨rfl, rfl⟩
  · intro db e he
    rw [storage_PutNumber_eq] at he
    cases hf : db.next.1.fail with
    | none =>
      rw [hf] at he
      simp at he
    | some c =>
      rw [hf] at he
      simp only [Option.some.injEq] at he
      exact ⟨c, rfl, he.symm, by rw [← he]; rfl, by rw [← he]; rfl⟩
  · intro db e he
    rw [storage_GetSlice_eq] at he
    cases hf : db.next.1.fail with
    | some c =>
      rw [hf] at he
      simp only [Option.some.injEq] at he
      exact ⟨c, Or.inl rfl, he.symm, by rw [← he]; rfl, by rw [← he]; rfl⟩
    | none =>
      rw [hf] at he
      simp only at he
      rcases hs : storage.scanRows "storage.GetSlice"
          (deliver db.next.1.badRow (permuteRows db.next.1.order db.nums)) none
        with ⟨ys, _ | e2⟩
      · rw [hs] at he
        cases hi : db.next.1.iterErr with
        | none =>
          rw [hi] at he
          simp at he
        | some c =>
          rw [hi] at he
          simp only [Option.some.injEq] at he
          exact ⟨c, Or.inr (Or.inr rfl), he.symm, by rw [← he]; rfl, by rw [← he]; rfl⟩
      · rw [hs] at he
        simp only [Option.some.injEq] at he
        obtain ⟨i, c, hb, hi, hw⟩ := scanRows_deliver_err _ _ ys e2 hs
        rw [(permuteRows_perm _ _).length_eq] at hi
        rw [he] at hw
        exact ⟨c, Or.inr (Or.inl ⟨i, hb, hi⟩), hw, by rw [hw]; rfl, by rw [hw]; rfl⟩
  · intro db c hf
    constructor
    · rw [storage_PutNumber_eq, hf]
    · rw [storage_GetSlice_eq, hf]
  · intro db i c hf hb hi
    rw [storage_GetSlice_eq, hf, hb]
    simp only
    rw [scanRows_deliver_bad i c _ (by rw [(permuteRows_perm _ _).length_eq]; exact hi)]
  · intro db c hf hb hi
    rw [storage_GetSlice_eq, hf, hb, hi]
    simp only [deliver, scanRows_ok]

/-- C9 as amended, at the errors of the storage error tests: `PutNumber` returns the error
"database write failed" itself and logs one record naming `useCase.PutNumber`; on the
Postgres storage a row that cannot be scanned gives the scan error wrapped under
`storage.GetSlice`. -/
theorem C9_returned_error_is_the_storage_error_witness :
    (∀ (lg : Logger) (e : GoError),
        (NewUseCase (some ⟨"text"⟩)
            (stubStorage none (some (GoError.mk "database write failed"))
              (some (GoError.mk "database connection failed")))).log = some lg →
        ((NewUseCase (some ⟨"text"⟩)
            (stubStorage none (some (GoError.mk "database write failed"))
              (some (GoError.mk "database connection failed")))).Storage.PutNumber
            "ctx" 42 []).1 = some e →
        ((NewUseCase (some ⟨"text"⟩)
            (stubStorage none (some (GoError.mk "database write failed"))
              (some (GoError.mk "database connection failed")))).PutNumber
            "ctx" 42 { store := [], logs := [] }).1 = .ret (some e)
          ∧ ((NewUseCase (some ⟨"text"⟩)
              (stubStorage none (some (GoError.mk "database write failed"))
                (some (GoError.mk "database connection failed")))).PutNumber
              "ctx" 42 { store := [], logs := [] }).2.logs
            = ({ store := [], logs := [] } : World (List Call)).logs
              ++ [{ msg := "failed to put number"
                    args := ["op", "useCase.PutNumber", "error", e.Error] }])
      ∧ ((NewUseCase (some ⟨"text"⟩)
            (stubStorage none (some (GoError.mk "database write failed"))
              (some (GoError.mk "database connection failed")))).PutNumber
            "ctx" 42 { store := [], logs := [] }).1
          = .ret (some (GoError.mk "database write failed"))
      ∧ ((NewUseCase (some ⟨"text"⟩)
            (stubStorage none (some (GoError.mk "database write failed"))
              (some (GoError.mk "database connection failed")))).GetSlices
            "ctx" { store := [], logs := [] }).2.logs
          = [{ msg := "failed to get slices"
               args := ["useCase.GetSlices", "database connection failed"] }]
      ∧ (storage.GetSlice "ctx"
            { nums := [5, 2, 8]
              tape := [{ fail := none, order := 0
                         badRow := some (1, GoError.mk "cannot scan NULL into *int")
                         iterErr := none }] }).1
          = (none, some (GoError.wrap "storage.GetSlice: could not fetch nums: "
              (GoError.mk "cannot scan NULL into *int")))
      ∧ (storage.GetSlice "ctx"
            { nums := [5, 2, 8]
              tape := [{ fail := none, order := 0, badRow := none
                         iterErr := some (GoError.mk "unexpected EOF") }] }).1
          = (none, some (GoError.wrap "storage.GetSlice: could not fetch nums: "
              (GoError.mk "unexpected EOF"))) :=
  ⟨(C9_returned_error_is_the_storage_error
      (NewUseCase (some ⟨"text"⟩)
        (stubStorage none (some (GoError.mk "database write failed"))
          (some (GoError.mk "database connection failed"))))
      "ctx" 42 { store := [], logs := [] }).2.2.1,
    by decide, by decide, by decide, by decide⟩

/-- C9 as stated fails: the storage fails with "database write failed" (with "database
connection failed" on the scan), and the error returned by `PutNumber` (by `GetSlices`) is
that error itself, which wraps nothing, so it is not an error that wraps the storage's
error. -/
theorem C9_counterexample_error_not_wrapped :
    ((stubStorage none (some (GoError.mk "database write failed"))
          (some (GoError.mk "database connection failed"))).PutNumber "ctx" 42 []).1
        = some (GoError.mk "database write failed")
      ∧ ((NewUseCase (some ⟨"text"⟩)
            (stubStorage none (some (GoError.mk "database write failed"))
              (some (GoError.mk "database connection failed")))).PutNumber
            "ctx" 42 { store := [], logs := [] }).1
          = .ret (some (GoError.mk "database write failed"))
      ∧ (GoError.mk "database write failed").Unwrap
          ≠ some (GoError.mk "database write failed")
      ∧ ((NewUseCase (some ⟨"text"⟩)
            (stubStorage none (some (GoError.mk "database write failed"))
              (some (GoError.mk "database connection failed")))).GetSlices
            "ctx" { store := [], logs := [] }).1
          = .ret (none, some (GoError.mk "database connection failed"))
      ∧ (GoError.mk "database connection failed").Unwrap
          ≠ some (GoError.mk "database connection failed")
      ∧ ((NewUseCase (some ⟨"text"⟩)
            (stubStorage none (some (GoError.mk "database write failed"))
              (some (GoError.mk "database connection failed")))).PutNumber
            "ctx" 42 { store := [], logs := [] }).2.logs
          = [{ msg := "failed to put number"
               args := ["op", "useCase.PutNumber", "error", "database write failed"] }] := by
  decide

/-! ## The HTTP handler -/

theorem jsonMarshal_snd (numbers : Slice) : (jsonMarshal numbers).2 = none := by
  cases numbers <;> rfl

theorem jsonMarshal_eq (numbers : Slice) :
    jsonMarshal numbers = ((jsonMarshal numbers).1, none) := by
  cases numbers <;> rfl

theorem reject_with_logger {ω : Type} (h : handlers.HTTPHandler ω) (lg : Logger) (msg : String)
    (err : GoError) (w : ResponseWriter) (st : ω) (logs : List LogRecord)
    (hlog : h.log = some lg) :
    handlers.reject h msg err w st logs
      = { outcome := .ret (), w := w.WriteHeader 400, state := st
          logs := logs ++ [{ msg := msg, args := ["handlers.HandleRequest", err.Error] }] } := by
  simp [handlers.reject, hlog, logError]

/-- C10, as the code has it: for a handler that has a logger, a request whose body decodes
to `n` and a response whose body write does not fail, `HandleRequest` calls `PutNumber n`
and then `GetSlices`. When both return nil errors, the status is 200 and the body is
`json.Marshal` of the slice `GetSlices` returned (the JSON array of its elements in order
for a non-nil slice, `null` for the nil slice). When `PutNumber` returns an error the
status is 400, nothing is written to the body and the use case is left as `PutNumber`
left it (`GetSlices` is not called); when `GetSlices` returns an error the status is 400.
Conversely the handler returns with status 200 only when both calls returned nil
errors. -/
theorem C10_HandleRequest_status_and_body {ω : Type} (h : handlers.HTTPHandler ω)
    (lg : Logger) (unmarshalUserNum : String → Except GoError Int) (ctx : Ctx) (body : String)
    (n : Int) (st : ω) (logs : List LogRecord) (hlog : h.log = some lg)
    (hdec : unmarshalUserNum body = .ok n) :
    (∀ (st1 st2 : ω) (numbers : Slice),
        h.useCase.PutNumber ctx n st = (.ret none, st1) →
        h.useCase.GetSlices ctx st1 = (.ret (numbers, none), st2) →
        (h.HandleRequest unmarshalUserNum ctx (ResponseWriter.fresh none) ⟨.ok body⟩ st
            logs).outcome = .ret ()
          ∧ (h.HandleRequest unmarshalUserNum ctx (ResponseWriter.fresh none) ⟨.ok body⟩ st
            logs).w.status = 200
          ∧ (h.HandleRequest unmarshalUserNum ctx (ResponseWriter.fresh none) ⟨.ok body⟩ st
            logs).w.body = (jsonMarshal numbers).1
          ∧ (h.HandleRequest unmarshalUserNum ctx (ResponseWriter.fresh none) ⟨.ok body⟩ st
            logs).state = st2)
      ∧ (∀ (st1 : ω) (e : GoError),
        h.useCase.PutNumber ctx n st = (.ret (some e), st1) →
        (h.HandleRequest unmarshalUserNum ctx (ResponseWriter.fresh none) ⟨.ok body⟩ st
            logs).outcome = .ret ()
          ∧ (h.HandleRequest unmarshalUserNum ctx (ResponseWriter.fresh none) ⟨.ok body⟩ st
            logs).w.status = 400
          ∧ (h.HandleRequest unmarshalUserNum ctx (ResponseWriter.fresh none) ⟨.ok body⟩ st
            logs).w.body = ""
          ∧ (h.HandleRequest unmarshalUserNum ctx (ResponseWriter.fresh none) ⟨.ok body⟩ st
            logs).state = st1)
      ∧ (∀ (st1 st2 : ω) (numbers : Slice) (e : GoError),
        h.useCase.PutNumber ctx n st = (.ret none, st1) →
        h.useCase.GetSlices ctx st1 = (.ret (numbers, some e), st2) →
        (h.HandleRequest unmarshalUserNum ctx (ResponseWriter.fresh none) ⟨.ok body⟩ st
            logs).outcome = .ret ()
          ∧ (h.HandleRequest unmarshalUserNum ctx (ResponseWriter.fresh none) ⟨.ok body⟩ st
            logs).w.status = 400
          ∧ (h.HandleRequest unmarshalUserNum ctx (ResponseWriter.fresh none) ⟨.ok body⟩ st
            logs).w.body = "")
      ∧ ((h.HandleRequest unmarshalUserNum ctx (ResponseWriter.fresh none) ⟨.ok body⟩ st
            logs).outcome = .ret () →
        (h.HandleRequest unmarshalUserNum ctx (ResponseWriter.fresh none) ⟨.ok body⟩ st
            logs).w.status = 200 →
        ∃ (st1 st2 : ω) (numbers : Slice),
          h.useCase.PutNumber ctx n st = (.ret none, st1)
            ∧ h.useCase.GetSlices ctx st1 = (.ret (numbers, none), st2))
      ∧ (jsonMarshal none).1 = "null"
      ∧ ∀ xs : List Int, (jsonMarshal (some xs)).1 = jsonArray xs := by
  refine ⟨?_, ?_, ?_, ?_, rfl, fun _ => rfl⟩
  · intro st1 st2 numbers hp hg
    simp only [handlers.HTTPHandler.HandleRequest, hdec, hp, hg]
    rw [jsonMarshal_eq numbers]
    simp [ResponseWriter.Write, ResponseWriter.WriteHeader, ResponseWriter.SetHeader,
      ResponseWriter.fresh, ResponseWriter.status]
  · intro st1 e hp
    simp only [handlers.HTTPHandler.HandleRequest, hdec, hp]
    rw [reject_with_logger h lg _ _ _ _ _ hlog]
    simp [ResponseWriter.WriteHeader, ResponseWriter.SetHeader, ResponseWriter.fresh,
      ResponseWriter.status]
  · intro st1 st2 numbers e hp hg
    simp only [handlers.HTTPHandler.HandleRequest, hdec, hp, hg]
    rw [reject_with_logger h lg _ _ _ _ _ hlog]
    simp [ResponseWriter.WriteHeader, ResponseWriter.SetHeader, ResponseWriter.fresh,
      ResponseWriter.status]
  · intro hout hstat
    rcases hp : h.useCase.PutNumber ctx n st with ⟨_ | reason, st1⟩
    · rename_i val
      cases val with
      | some e =>
        simp only [handlers.HTTPHandler.HandleRequest, hdec, hp] at hstat
        rw [reject_with_logger h lg _ _ _ _ _ hlog] at hstat
        simp [ResponseWriter.WriteHeader, ResponseWriter.SetHeader, ResponseWriter.fresh,
          ResponseWriter.status] at hstat
      | none =>
        rcases hg : h.useCase.GetSlices ctx st1 with ⟨_ | reason, st2⟩
        · rename_i val
          rcases val with ⟨numbers, _ | e⟩
          · exact ⟨st1, st2, numbers, rfl, hg⟩
          · simp only [handlers.HTTPHandler.HandleRequest, hdec, hp, hg] at hstat
            rw [reject_with_logger h lg _ _ _ _ _ hlog] at hstat
            simp [ResponseWriter.WriteHeader, ResponseWriter.SetHeader, ResponseWriter.fresh,
              ResponseWriter.status] at hstat
        · simp [handlers.HTTPHandler.HandleRequest, hdec, hp, hg] at hout
    · simp [handlers.HTTPHandler.HandleRequest, hdec, hp] at hout

/-- C10 as amended, at the success test: `PutNumber 42` returns nil and `GetSlices` returns
`[1,2,42]`; the status is 200, the body is `[1,2,42]` and the use case received the two
calls in that order. -/
theorem C10_HandleRequest_status_and_body_witness :
    ({ useCase := handlers.stubUseCase none (some [1, 2, 42]) none
       log := some ⟨"text"⟩ } : handlers.HTTPHandler (List Call)).log = some ⟨"text"⟩
      ∧ handlers.stubUnmarshal [("\x7b\"num\":42\x7d", 42)] "\x7b\"num\":42\x7d" = .ok 42
      ∧ ((({ useCase := handlers.stubUseCase none (some [1, 2, 42]) none
             log := some ⟨"text"⟩ } : handlers.HTTPHandler (List Call)).HandleRequest
            (handlers.stubUnmarshal [("\x7b\"num\":42\x7d", 42)]) "ctx"
            (ResponseWriter.fresh none) ⟨.ok "\x7b\"num\":42\x7d"⟩ [] []).outcome = .ret ()
        ∧ (({ useCase := handlers.stubUseCase none (some [1, 2, 42]) none
              log := some ⟨"text"⟩ } : handlers.HTTPHandler (List Call)).HandleRequest
            (handlers.stubUnmarshal [("\x7b\"num\":42\x7d", 42)]) "ctx"
            (ResponseWriter.fresh none) ⟨.ok "\x7b\"num\":42\x7d"⟩ [] []).w.status = 200
        ∧ (({ useCase := handlers.stubUseCase none (some [1, 2, 42]) none
              log := some ⟨"text"⟩ } : handlers.HTTPHandler (List Call)).HandleRequest
            (handlers.stubUnmarshal [("\x7b\"num\":42\x7d", 42)]) "ctx"
            (ResponseWriter.fresh none) ⟨.ok "\x7b\"num\":42\x7d"⟩ [] []).w.body
          = (jsonMarshal (some [1, 2, 42])).1
        ∧ (({ useCase := handlers.stubUseCase none (some [1, 2, 42]) none
              log := some ⟨"text"⟩ } : handlers.HTTPHandler (List Call)).HandleRequest
            (handlers.stubUnmarshal [("\x7b\"num\":42\x7d", 42)]) "ctx"
            (ResponseWriter.fresh none) ⟨.ok "\x7b\"num\":42\x7d"⟩ [] []).state
          = [Call.put "ctx" 42, Call.get "ctx"])
      ∧ (jsonMarshal (some [1, 2, 42])).1 = "[1,2,42]" :=
  ⟨rfl, rfl,
    (C10_HandleRequest_status_and_body
      ({ useCase := handlers.stubUseCase none (some [1, 2, 42]) none
         log := some ⟨"text"⟩ } : handlers.HTTPHandler (List Call))
      ⟨"text"⟩ (handlers.stubUnmarshal [("\x7b\"num\":42\x7d", 42)]) "ctx"
      "\x7b\"num\":42\x7d" 42 [] [] rfl rfl).1
      [Call.put "ctx" 42] [Call.put "ctx" 42, Call.get "ctx"] (some [1, 2, 42]) rfl rfl,
    by decide⟩

/-- C10 as stated fails at two requests served by a handler that has a logger, both with
`PutNumber 42` and `GetSlices` returning nil errors. In the first `GetSlices` returns the
nil slice: the status is 200 and the body is `null`, not the JSON array `[]` of the empty
sequence. In the second `GetSlices` returns `[1,2,42]` and the connection refuses the
body: the status is 200 and the body is empty, not `[1,2,42]`. -/
theorem C10_counterexample_body_not_the_array :
    ((handlers.stubUseCase none none none).PutNumber "ctx" 42 []).1 = .ret none
      ∧ ((handlers.stubUseCase none none none).GetSlices "ctx" [Call.put "ctx" 42]).1
          = .ret (none, none)
      ∧ (({ useCase := handlers.stubUseCase none none none
            log := some ⟨"text"⟩ } : handlers.HTTPHandler (List Call)).HandleRequest
            (handlers.stubUnmarshal [("\x7b\"num\":42\x7d", 42)]) "ctx"
            (ResponseWriter.fresh none) ⟨.ok "\x7b\"num\":42\x7d"⟩ [] []).w.status = 200
      ∧ (({ useCase := handlers.stubUseCase none none none
            log := some ⟨"text"⟩ } : handlers.HTTPHandler (List Call)).HandleRequest
            (handlers.stubUnmarshal [("\x7b\"num\":42\x7d", 42)]) "ctx"
            (ResponseWriter.fresh none) ⟨.ok "\x7b\"num\":42\x7d"⟩ [] []).w.body = "null"
      ∧ (({ useCase := handlers.stubUseCase none none none
            log := some ⟨"text"⟩ } : handlers.HTTPHandler (List Call)).HandleRequest
            (handlers.stubUnmarshal [("\x7b\"num\":42\x7d", 42)]) "ctx"
            (ResponseWriter.fresh none) ⟨.ok "\x7b\"num\":42\x7d"⟩ [] []).w.body
          ≠ jsonArray (Slice.toList none)
      ∧ ((handlers.stubUseCase none (some [1, 2, 42]) none).GetSlices "ctx"
            [Call.put "ctx" 42]).1 = .ret (some [1, 2, 42], none)
      ∧ (({ useCase := handlers.stubUseCase none (some [1, 2, 42]) none
            log := some ⟨"text"⟩ } : handlers.HTTPHandler (List Call)).HandleRequest
            (handlers.stubUnmarshal [("\x7b\"num\":42\x7d", 42)]) "ctx"
            (ResponseWriter.fresh (some (GoError.mk "broken pipe")))
            ⟨.ok "\x7b\"num\":42\x7d"⟩ [] []).w.status = 200
      ∧ (({ useCase := handlers.stubUseCase none (some [1, 2, 42]) none
            log := some ⟨"text"⟩ } : handlers.HTTPHandler (List Call)).HandleRequest
            (handlers.stubUnmarshal [("\x7b\"num\":42\x7d", 42)]) "ctx"
            (ResponseWriter.fresh (some (GoError.mk "broken pipe")))
            ⟨.ok "\x7b\"num\":42\x7d"⟩ [] []).w.body = ""
      ∧ jsonArray [1, 2, 42] ≠ "" := by
  decide

/-! ## Sorted input and scan order -/

theorem SortNums_of_short (xs : Slice) (h : xs.len < 2) : SortNums xs = (xs, none) := by
  unfold SortNums
  rw [if_pos h]

theorem SortNums_of_chain (xs : Slice) (h : xs.toList.Chain' (· ≤ ·)) :
    SortNums xs = (xs, none) := by
  cases xs with
  | none => rfl
  | some l =>
    have hs : l.Sorted (· ≤ ·) := List.chain'_iff_pairwise.1 h
    rw [SortNums_eq (some l), SortNums_some, slicesSort_of_sorted hs]

/-- C11: when `Storage.GetSlice` succeeds with a slice `xs` that has fewer than two
elements or in which every adjacent pair `(a, b)` satisfies `a ≤ b`, `SortNums xs` is `xs`
with a nil error and `UseCase.GetSlices` returns `xs` itself, element for element. -/
theorem C11_sorted_input_is_returned_unchanged {σ : Type} (u : UseCase σ) (ctx : Ctx)
    (w : World σ) (xs : Slice) (st : σ)
    (h : u.Storage.GetSlice ctx w.store = ((xs, none), st))
    (hs : xs.len < 2 ∨ xs.toList.Chain' (· ≤ ·)) :
    SortNums xs = (xs, none) ∧ (u.GetSlices ctx w).1 = .ret (xs, none) := by
  have hsort : SortNums xs = (xs, none) := by
    rcases hs with hs | hs
    · exact SortNums_of_short xs hs
    · exact SortNums_of_chain xs hs
  refine ⟨hsort, ?_⟩
  rw [GetSlices_of_scan_ok u ctx w xs st h, hsort]

/-- C11 at the slices of the tests: `[1,2,3,4,5]` gives `[1,2,3,4,5]` and `[42]` gives
`[42]`. -/
theorem C11_sorted_input_is_returned_unchanged_witness :
    (stubStorage (some [1, 2, 3, 4, 5]) none none).GetSlice "ctx" []
        = ((some [1, 2, 3, 4, 5], none), [Call.get "ctx"])
      ∧ (Slice.len (some [1, 2, 3, 4, 5]) < 2
          ∨ (Slice.toList (some [1, 2, 3, 4, 5])).Chain' (· ≤ ·))
      ∧ (SortNums (some [1, 2, 3, 4, 5]) = (some [1, 2, 3, 4, 5], none)
        ∧ ((NewUseCase (some ⟨"text"⟩) (stubStorage (some [1, 2, 3, 4, 5]) none none)).GetSlices
            "ctx" { store := [], logs := [] }).1 = .ret (some [1, 2, 3, 4, 5], none))
      ∧ ((NewUseCase (some ⟨"text"⟩) (stubStorage (some [42]) none none)).GetSlices
            "ctx" { store := [], logs := [] }).1 = .ret (some [42], none) :=
  ⟨rfl, Or.inr (by simp [Slice.toList]),
    C11_sorted_input_is_returned_unchanged
      (NewUseCase (some ⟨"text"⟩) (stubStorage (some [1, 2, 3, 4, 5]) none none))
      "ctx" { store := [], logs := [] } (some [1, 2, 3, 4, 5]) [Call.get "ctx"] rfl
      (Or.inr (by simp [Slice.toList])),
    by decide⟩

/-- C12: for slices `xs` and `ys` that are permutations of each other, `SortNums` returns
the same elements in the same order and the same nil error, and the very same slice when
`xs` and `ys` are both nil or both non-nil. On the Postgres storage, two stores holding
the same numbers with the same multiplicities give the same result to a listing whose
scan does not fail, in whatever orders the rows are held and scanned. -/
theorem C12_listing_independent_of_scan_order (xs ys : Slice) (u : UseCase Db) (ctx : Ctx)
    (w1 w2 : World Db) (hperm : xs.toList.Perm ys.toList)
    (hst : u.Storage = storage.Storage) (hrows : w1.store.nums.Perm w2.store.nums)
    (h1 : w1.store.next.1.scanOk) (h2 : w2.store.next.1.scanOk) :
    (SortNums xs).1.toList = (SortNums ys).1.toList
      ∧ (SortNums xs).2 = (SortNums ys).2
      ∧ ((xs = none ↔ ys = none) → SortNums xs = SortNums ys)
      ∧ (u.GetSlices ctx w1).1 = (u.GetSlices ctx w2).1
      ∧ ∃ r : Slice, (u.GetSlices ctx w1).1 = .ret (r, none) := by
  refine ⟨?_, ?_, ?_, ?_, ?_⟩
  · rw [SortNums_toList, SortNums_toList, slicesSort_eq_of_perm hperm]
  · rw [SortNums_snd, SortNums_snd]
  · intro hnil
    cases xs with
    | none =>
      have : ys = none := hnil.1 rfl
      rw [this]
    | some l1 =>
      cases ys with
      | none => exact absurd (hnil.2 rfl) (by simp)
      | some l2 =>
        have hp : l1.Perm l2 := hperm
        rw [SortNums_eq (some l1), SortNums_eq (some l2), SortNums_some, SortNums_some,
          slicesSort_eq_of_perm hp]
  · rw [GetSlices_scanOk u ctx w1 hst h1, GetSlices_scanOk u ctx w2 hst h2]
    by_cases hz : w1.store.nums = []
    · have hz2 : w2.store.nums = [] := by
        rw [hz] at hrows
        exact List.nil_perm.1 hrows
      simp [hz, hz2]
    · have hz2 : w2.store.nums ≠ [] := by
        intro h0
        rw [h0] at hrows
        exact hz (List.perm_nil.1 hrows)
      simp [hz, hz2, slicesSort_eq_of_perm hrows]
  · rw [GetSlices_scanOk u ctx w1 hst h1]
    exact ⟨_, rfl⟩

/-- C12 on `[5,2,8]` and `[8,5,2]`, and on two stores holding these rows whose scans use
different orderings: both listings return `[2,5,8]`. -/
theorem C12_listing_independent_of_scan_order_witness :
    (Slice.toList (some [5, 2, 8])).Perm (Slice.toList (some [8, 5, 2]))
      ∧ (NewUseCase none storage.Storage).Storage = storage.Storage
      ∧ (({ store := { nums := [5, 2, 8], tape := [] }, logs := [] } : World Db)).store.nums.Perm
          (({ store := { nums := [8, 5, 2]
                         tape := [{ fail := none, order := 3, badRow := none, iterErr := none }] }
              logs := [] } : World Db)).store.nums
      ∧ ((SortNums (some [5, 2, 8])).1.toList = (SortNums (some [8, 5, 2])).1.toList
        ∧ (SortNums (some [5, 2, 8])).2 = (SortNums (some [8, 5, 2])).2
        ∧ (((some [5, 2, 8] : Slice) = none ↔ (some [8, 5, 2] : Slice) = none) →
            SortNums (some [5, 2, 8]) = SortNums (some [8, 5, 2]))
        ∧ ((NewUseCase none storage.Storage).GetSlices "ctx"
              { store := { nums := [5, 2, 8], tape := [] }, logs := [] }).1
            = ((NewUseCase none storage.Storage).GetSlices "ctx"
              { store := { nums := [8, 5, 2]
                           tape := [{ fail := none, order := 3, badRow := none, iterErr := none }] }
                logs := [] }).1
        ∧ ∃ r : Slice,
            ((NewUseCase none storage.Storage).GetSlices "ctx"
              { store := { nums := [5, 2, 8], tape := [] }, logs := [] }).1 = .ret (r, none))
      ∧ SortNums (some [5, 2, 8]) = (some [2, 5, 8], none)
      ∧ SortNums (some [8, 5, 2]) = (some [2, 5, 8], none)
      ∧ (storage.GetSlice "ctx"
            { nums := [8, 5, 2]
              tape := [{ fail := none, order := 3, badRow := none, iterErr := none }] }).1
          = (some [8, 2, 5], none)
      ∧ ((NewUseCase none storage.Storage).GetSlices "ctx"
            { store := { nums := [8, 5, 2]
                         tape := [{ fail := none, order := 3, badRow := none, iterErr := none }] }
              logs := [] }).1 = .ret (some [2, 5, 8], none) :=
  ⟨by decide, rfl, by decide,
    C12_listing_independent_of_scan_order (some [5, 2, 8]) (some [8, 5, 2])
      (NewUseCase none storage.Storage) "ctx"
      { store := { nums := [5, 2, 8], tape := [] }, logs := [] }
      { store := { nums := [8, 5, 2]
                   tape := [{ fail := none, order := 3, badRow := none, iterErr := none }] }
        logs := [] }
      (by decide) rfl (by decide) (by decide) (by decide),
    by decide, by decide, by decide, by decide⟩

/-! ## The logger of the handler -/

theorem reject_nil_logger {ω : Type} (h : handlers.HTTPHandler ω) (msg : String)
    (err : GoError) (w : ResponseWriter) (st : ω) (logs : List LogRecord)
    (hlog : h.log = none) :
    handlers.reject h msg err w st logs
      = { outcome := .panic nilDeref, w := w, state := st, logs := logs } := by
  simp [handlers.reject, hlog, logError]

/-- With a logger, as the handler tests build the handler, an unreadable or unparsable
body is logged and answered with status 400. -/
theorem HandleRequest_bad_body_with_logger {ω : Type} (h : handlers.HTTPHandler ω)
    (lg : Logger) (unmarshalUserNum : String → Except GoError Int) (ctx : Ctx) (r : Request)
    (st : ω) (logs : List LogRecord) (hlog : h.log = some lg)
    (hbad : (∃ err, r.body = .error err)
      ∨ ∃ body err, r.body = .ok body ∧ unmarshalUserNum body = .error err) :
    (h.HandleRequest unmarshalUserNum ctx (ResponseWriter.fresh none) r st logs).outcome
        = .ret ()
      ∧ (h.HandleRequest unmarshalUserNum ctx (ResponseWriter.fresh none) r st logs).w.status
        = 400
      ∧ (h.HandleRequest unmarshalUserNum ctx (ResponseWriter.fresh none) r st logs).logs.length
        = logs.length + 1 := by
  rcases hbad with ⟨err, hb⟩ | ⟨body, err, hb, hu⟩
  · simp only [handlers.HTTPHandler.HandleRequest, hb]
    rw [reject_with_logger h lg _ _ _ _ _ hlog]
    simp [ResponseWriter.WriteHeader, ResponseWriter.SetHeader, ResponseWriter.fresh,
      ResponseWriter.status]
  · simp only [handlers.HTTPHandler.HandleRequest, hb, hu]
    rw [reject_with_logger h lg _ _ _ _ _ hlog]
    simp [ResponseWriter.WriteHeader, ResponseWriter.SetHeader, ResponseWriter.fresh,
      ResponseWriter.status]

/-- C13, what the code does: the handler returned by `NewHTTPHandler` has a nil logger, and
on each error path of `HandleRequest` (unreadable body, unparsable body, `PutNumber`
returning an error, `GetSlices` returning an error) the handler function panics at
`h.log.Error`: no record is logged and no status is written. -/
theorem C13_NewHTTPHandler_error_paths_panic {ω : Type} (useCase : handlers.UseCase ω)
    (unmarshalUserNum : String → Except GoError Int) (ctx : Ctx) (w : ResponseWriter)
    (r : Request) (st : ω) (logs : List LogRecord) :
    (handlers.NewHTTPHandler useCase).log = none
      ∧ (∀ err : GoError, r.body = .error err →
        ((handlers.NewHTTPHandler useCase).HandleRequest unmarshalUserNum ctx w r st
            logs).outcome = .panic nilDeref
          ∧ ((handlers.NewHTTPHandler useCase).HandleRequest unmarshalUserNum ctx w r st
            logs).w.code = w.code
          ∧ ((handlers.NewHTTPHandler useCase).HandleRequest unmarshalUserNum ctx w r st
            logs).logs = logs)
      ∧ (∀ (body : String) (err : GoError), r.body = .ok body →
        unmarshalUserNum body = .error err →
        ((handlers.NewHTTPHandler useCase).HandleRequest unmarshalUserNum ctx w r st
            logs).outcome = .panic nilDeref
          ∧ ((handlers.NewHTTPHandler useCase).HandleRequest unmarshalUserNum ctx w r st
            logs).w.code = w.code
          ∧ ((handlers.NewHTTPHandler useCase).HandleRequest unmarshalUserNum ctx w r st
            logs).logs = logs)
      ∧ (∀ (body : String) (n : Int) (err : GoError) (st1 : ω), r.body = .ok body →
        unmarshalUserNum body = .ok n →
        useCase.PutNumber ctx n st = (.ret (some err), st1) →
        ((handlers.NewHTTPHandler useCase).HandleRequest unmarshalUserNum ctx w r st
            logs).outcome = .panic nilDeref
          ∧ ((handlers.NewHTTPHandler useCase).HandleRequest unmarshalUserNum ctx w r st
            logs).w.code = w.code
          ∧ ((handlers.NewHTTPHandler useCase).HandleRequest unmarshalUserNum ctx w r st
            logs).logs = logs)
      ∧ (∀ (body : String) (n : Int) (err : GoError) (numbers : Slice) (st1 st2 : ω),
        r.body = .ok body → unmarshalUserNum body = .ok n →
        useCase.PutNumber ctx n st = (.ret none, st1) →
        useCase.GetSlices ctx st1 = (.ret (numbers, some err), st2) →
        ((handlers.NewHTTPHandler useCase).HandleRequest unmarshalUserNum ctx w r st
            logs).outcome = .panic nilDeref
          ∧ ((handlers.NewHTTPHandler useCase).HandleRequest unmarshalUserNum ctx w r st
            logs).w.code = w.code
          ∧ ((handlers.NewHTTPHandler useCase).HandleRequest unmarshalUserNum ctx w r st
            logs).logs = logs) := by
  have hnil : (handlers.NewHTTPHandler useCase).log = none := rfl
  refine ⟨hnil, ?_, ?_, ?_, ?_⟩
  · intro err hb
    simp only [handlers.HTTPHandler.HandleRequest, hb]
    rw [reject_nil_logger _ _ _ _ _ _ hnil]
    simp [ResponseWriter.SetHeader]
  · intro body err hb hu
    simp only [handlers.HTTPHandler.HandleRequest, hb, hu]
    rw [reject_nil_logger _ _ _ _ _ _ hnil]
    simp [ResponseWriter.SetHeader]
  · intro body n err st1 hb hu hp
    have hp2 : (handlers.NewHTTPHandler useCase).useCase.PutNumber ctx n st
        = (.ret (some err), st1) := hp
    simp only [handlers.HTTPHandler.HandleRequest, hb, hu, hp2]
    rw [reject_nil_logger _ _ _ _ _ _ hnil]
    simp [ResponseWriter.SetHeader]
  · intro body n err numbers st1 st2 hb hu hp hg
    have hp2 : (handlers.NewHTTPHandler useCase).useCase.PutNumber ctx n st
        = (.ret none, st1) := hp
    have hg2 : (handlers.NewHTTPHandler useCase).useCase.GetSlices ctx st1
        = (.ret (numbers, some err), st2) := hg
    simp only [handlers.HTTPHandler.HandleRequest, hb, hu, hp2, hg2]
    rw [reject_nil_logger _ _ _ _ _ _ hnil]
    simp [ResponseWriter.SetHeader]

/-- C13 at the wiring of `main`: the handler is `NewHTTPHandler` of a use case with a
logger over the Postgres storage, the request carries 42 and the `INSERT` fails. The use
case logs and returns the error; the handler then panics, without a log record of its own
and without status 400. The same handler panics on the body of the invalid JSON test. -/
theorem C13_NewHTTPHandler_error_paths_panic_witness :
    (handlers.NewHTTPHandler (NewUseCase (some ⟨"json"⟩) storage.Storage).toHandlers).log = none
      ∧ ((handlers.NewHTTPHandler
            (NewUseCase (some ⟨"json"⟩) storage.Storage).toHandlers).HandleRequest
            (handlers.stubUnmarshal [("\x7b\"num\":42\x7d", 42)]) "ctx"
            (ResponseWriter.fresh none) ⟨.ok "\x7b\"num\":42\x7d"⟩
            { store := { nums := []
                         tape := [{ fail := some (GoError.mk "connection refused")
                                    order := 0, badRow := none, iterErr := none }] }
              logs := [] } []).outcome = .panic nilDeref
      ∧ ((handlers.NewHTTPHandler
            (NewUseCase (some ⟨"json"⟩) storage.Storage).toHandlers).HandleRequest
            (handlers.stubUnmarshal [("\x7b\"num\":42\x7d", 42)]) "ctx"
            (ResponseWriter.fresh none) ⟨.ok "\x7b\"num\":42\x7d"⟩
            { store := { nums := []
                         tape := [{ fail := some (GoError.mk "connection refused")
                                    order := 0, badRow := none, iterErr := none }] }
              logs := [] } []).w.code = none
      ∧ ((handlers.NewHTTPHandler
            (NewUseCase (some ⟨"json"⟩) storage.Storage).toHandlers).HandleRequest
            (handlers.stubUnmarshal [("\x7b\"num\":42\x7d", 42)]) "ctx"
            (ResponseWriter.fresh none) ⟨.ok "\x7b\"num\":42\x7d"⟩
            { store := { nums := []
                         tape := [{ fail := some (GoError.mk "connection refused")
                                    order := 0, badRow := none, iterErr := none }] }
              logs := [] } []).logs = []
      ∧ ((handlers.NewHTTPHandler
            (NewUseCase (some ⟨"json"⟩) storage.Storage).toHandlers).HandleRequest
            (handlers.stubUnmarshal [("\x7b\"num\":42\x7d", 42)]) "ctx"
            (ResponseWriter.fresh none) ⟨.ok "\x7b\"num\":42\x7d"⟩
            { store := { nums := []
                         tape := [{ fail := some (GoError.mk "connection refused")
                                    order := 0, badRow := none, iterErr := none }] }
              logs := [] } []).state.logs.length = 1
      ∧ ((handlers.NewHTTPHandler (handlers.stubUseCase none none none)).HandleRequest
            (handlers.stubUnmarshal [("\x7b\"num\":42\x7d", 42)]) "ctx"
            (ResponseWriter.fresh none) ⟨.ok "invalid json\x7b"⟩ [] []).outcome
          = .panic nilDeref
      ∧ (({ useCase := handlers.stubUseCase none none none
            log := some ⟨"text"⟩ } : handlers.HTTPHandler (List Call)).HandleRequest
            (handlers.stubUnmarshal [("\x7b\"num\":42\x7d", 42)]) "ctx"
            (ResponseWriter.fresh none) ⟨.ok "invalid json\x7b"⟩ [] []).w.status = 400 :=
  ⟨(C13_NewHTTPHandler_error_paths_panic
      (NewUseCase (some ⟨"json"⟩) storage.Storage).toHandlers
      (handlers.stubUnmarshal [("\x7b\"num\":42\x7d", 42)]) "ctx"
      (ResponseWriter.fresh none) ⟨.ok "\x7b\"num\":42\x7d"⟩
      { store := { nums := []
                   tape := [{ fail := some (GoError.mk "connection refused")
                              order := 0, badRow := none, iterErr := none }] }
        logs := [] } []).1,
    by decide, by decide, by decide, by decide, by decide, by decide⟩

end Testovoe
